import Mathlib

/-!
# Reaction handlers of `api/reaction.go`

A shallow embedding of the three request handlers `saveReaction`,
`deleteReaction`, `listReactions` and of the detached `sendReactionEvent`.

The handlers are straight-line Go with early returns.  Every collaborator that
is not part of `api/reaction.go` (body decoding, the store behind
`store.Store`, the channel permission decision, the clock) is an explicit
input.  One run of a handler yields a `Run`: the final context, the bytes
written to the response, and the ordered log of everything the handler did.
-/

namespace Api

/-! ## Data model -/

/-- Modelled from the spec: the type `model.AppError` is not under src/; it is the error
value held in `Context.Err` and in `StoreResult.Err`, an error kind with its status. -/
structure AppError where
  Where : String
  Id : String
  Params : List (String × String)
  DetailedError : String
  StatusCode : Nat
deriving DecidableEq, Repr

/-- Status `http.StatusBadRequest`. -/
def StatusBadRequest : Nat := 400

/-- Status `http.StatusForbidden`. -/
def StatusForbidden : Nat := 403

/-- Status `http.StatusInternalServerError`. -/
def StatusInternalServerError : Nat := 500

/-- Modelled from the spec: `model.NewLocAppError` is not under src/; it builds the error
value from its four arguments, the handlers then overwrite `StatusCode`. -/
def NewLocAppError (loc id : String) (params : List (String × String)) (details : String) :
    AppError :=
  { Where := loc, Id := id, Params := params, DetailedError := details,
    StatusCode := StatusInternalServerError }

/-- Modelled from the spec: the value `Context.SetInvalidParam` stores, the
`StructuralValidation` kind ("malformed input, wrong-length identifier, missing required
field ... reported to caller with a 4xx-equivalent status"). -/
def NewInvalidParamError (loc name : String) : AppError :=
  { NewLocAppError loc "api.context.invalid_param.app_error" [("Name", name)] "" with
    StatusCode := StatusBadRequest }

/-- Modelled from the spec: the value the channel permission check stores on denial, the
`PermissionDenied` kind ("insufficient channel access ... reported with a 403-equivalent
status"). -/
def NewPermissionError (userId permission : String) : AppError :=
  { NewLocAppError "Permissions" "api.context.permissions.app_error" []
      ("userId=" ++ userId ++ ", " ++ "permission=" ++ permission) with
    StatusCode := StatusForbidden }

/-- Modelled from the spec: the type `model.Reaction` is not under src/; the "Reaction
descriptor: `{userId, postId, emojiName, createAt}`". -/
structure Reaction where
  UserId : String
  PostId : String
  EmojiName : String
  CreateAt : Int
deriving DecidableEq, Repr

/-- Modelled from the spec: the type `model.Post` is not under src/; "attributes relevant
here: `id`, `channelId`, `hasReactions`, `updateAt`", and `Rest` for every other attribute
of the post, which the handlers never touch. -/
structure Post where
  Id : String
  ChannelId : String
  UpdateAt : Int
  HasReactions : Bool
  Rest : List (String × String)
deriving DecidableEq, Repr

/-- Modelled from the spec: the type `model.PostList` is not under src/; it is the payload
of `Post().Get`, and `Posts` is its Go map from post id to `*Post`. -/
structure PostList where
  Order : List String
  Posts : List (String × Post)
deriving DecidableEq, Repr

/-- The Go map read `m[key]` on a map of pointers: `none` is the nil pointer a missing key
yields. -/
def PostList.lookup (pl : PostList) (postId : String) : Option Post :=
  pl.Posts.lookup postId

/-- A resolved `store.StoreResult`: exactly one of payload and error is populated. -/
inductive StoreResult (α : Type) where
  | data (d : α)
  | err (e : AppError)
deriving DecidableEq, Repr

/-- Modelled from the spec: the encoders of package `model` are not under src/ ("JSON wire
encoding/decoding of domain objects" is an external collaborator); an encoding is kept
symbolic, as the value it encodes. -/
inductive Json where
  | ofReaction (r : Reaction)
  | ofPost (p : Post)
  | ofReactions (rs : List Reaction)
  | statusOK
deriving DecidableEq, Repr

/-- Encoding `reaction.ToJson()`. -/
def Reaction.ToJson (r : Reaction) : Json := Json.ofReaction r

/-- Encoding `post.ToJson()`. -/
def Post.ToJson (p : Post) : Json := Json.ofPost p

/-- Encoding `model.ReactionsToJson(reactions)`. -/
def ReactionsToJson (rs : List Reaction) : Json := Json.ofReactions rs

/-- Modelled from the spec: the event type `model.WEBSOCKET_EVENT_REACTION_ADDED`. -/
def WEBSOCKET_EVENT_REACTION_ADDED : String := "reaction_added"

/-- Modelled from the spec: the event type `model.WEBSOCKET_EVENT_REACTION_REMOVED`. -/
def WEBSOCKET_EVENT_REACTION_REMOVED : String := "reaction_removed"

/-- Modelled from the spec: the event type `model.WEBSOCKET_EVENT_POST_EDITED`. -/
def WEBSOCKET_EVENT_POST_EDITED : String := "post_edited"

/-- Modelled from the spec: the permission `model.PERMISSION_READ_CHANNEL`, "read access to
the declared channel". -/
def PERMISSION_READ_CHANNEL : String := "read_channel"

/-- Modelled from the spec: the type `model.WebSocketEvent` is not under src/; the
"realtime event envelope: `{type, channelId, data}`", with the other addressing fields
`NewWebSocketEvent` is given. -/
structure WebSocketEvent where
  Event : String
  TeamId : String
  ChannelId : String
  UserId : String
  OmitUsers : List String
  Data : List (String × Json)
deriving DecidableEq, Repr

/-- Modelled from the spec: `model.NewWebSocketEvent(event, teamId, channelId, userId,
omitUsers)` is not under src/; it builds the envelope from its arguments, with no data. -/
def NewWebSocketEvent (event teamId channelId userId : String) (omitUsers : List String) :
    WebSocketEvent :=
  { Event := event, TeamId := teamId, ChannelId := channelId, UserId := userId,
    OmitUsers := omitUsers, Data := [] }

/-- Modelled from the spec: `message.Add(key, value)` is not under src/; it adds one entry
to the data of the envelope. -/
def WebSocketEvent.Add (m : WebSocketEvent) (key : String) (value : Json) : WebSocketEvent :=
  { m with Data := m.Data ++ [(key, value)] }

/-- The Go builtin `len` on a string: its length in bytes. -/
def len (s : String) : Nat := s.utf8ByteSize

/-- The Go map read `params[key]` on `mux.Vars(r)`: a missing key reads as the empty string. -/
def param (vars : List (String × String)) (key : String) : String :=
  (vars.lookup key).getD ""

/-! ## The detached broadcast -/

/-- What `sendReactionEvent` does to the outside world, in order. -/
inductive Emit where
  | Publish (m : WebSocketEvent)
  | InvalidateCacheForChannelPosts (channelId : String)
deriving DecidableEq, Repr

/-- The function `sendReactionEvent`; `now` is the reading `model.GetMillis()` returns.  The
result is the ordered list of its effects and the post as the function leaves it (the post
is passed by pointer and mutated in place). -/
def sendReactionEvent (event channelId : String) (reaction : Reaction) (post : Post)
    (now : Int) : List Emit × Post :=
  let message := NewWebSocketEvent event "" channelId "" []
  let message := message.Add "reaction" reaction.ToJson
  let e1 := Emit.Publish message
  let e2 := Emit.InvalidateCacheForChannelPosts post.ChannelId
  let post := { post with HasReactions := true }
  let post := { post with UpdateAt := now }
  let umessage := NewWebSocketEvent WEBSOCKET_EVENT_POST_EDITED "" channelId "" []
  let umessage := umessage.Add "post" post.ToJson
  let e3 := Emit.Publish umessage
  ([e1, e2, e3], post)

/-! ## Handler runs -/

/-- The arguments of one `go sendReactionEvent(event, channelId, reaction, post)`. -/
structure ReactionEventCall where
  event : String
  channelId : String
  reaction : Reaction
  post : Post
deriving DecidableEq, Repr

/-- One observable action of a handler. -/
inductive Effect where
  | PostGet (postId : String)
  | ReactionSave (reaction : Reaction)
  | ReactionDelete (reaction : Reaction)
  | ReactionGetForPost (postId : String)
  | PermissionCheck (channelId : String)
  | SetErr (e : AppError)
  | Write (body : Json)
  | Go (call : ReactionEventCall)
deriving DecidableEq, Repr

/-- The authenticated session: `c.Session`. -/
structure Session where
  UserId : String
deriving DecidableEq, Repr

/-- The request context `*Context`: the session and the error slot `c.Err`. -/
structure Context where
  Session : Session
  Err : Option AppError
deriving DecidableEq, Repr

/-- The inbound `*http.Request`: its body and the path variables `mux.Vars(r)`. -/
structure Request where
  Body : String
  Vars : List (String × String)
deriving DecidableEq, Repr

/-- Everything outside `api/reaction.go` that a handler run consults. -/
structure Env where
  /-- Decoder `model.ReactionFromJson`: `none` is the nil it returns on a bad body. -/
  ReactionFromJson : String → Option Reaction
  /-- The access decision behind `HasPermissionToChannelContext`: user, channel, permission. -/
  HasPermissionToChannel : String → String → String → Bool
  /-- The resolution of `Srv.Store.Post().Get(postId)`. -/
  PostGet : String → StoreResult PostList
  /-- The resolution of `Srv.Store.Reaction().Save(reaction)`. -/
  ReactionSave : Reaction → StoreResult Reaction
  /-- The resolution of `Srv.Store.Reaction().Delete(reaction)`. -/
  ReactionDelete : Reaction → StoreResult Unit
  /-- The resolution of `Srv.Store.Reaction().GetForPost(postId)`. -/
  ReactionGetForPost : String → StoreResult (List Reaction)

/-- The state of a handler run: the context, the response body written so far, the ordered
log of actions, and whether the run faulted on a nil post. -/
structure Run where
  c : Context
  Body : List Json
  Log : List Effect
  Panicked : Bool
deriving DecidableEq, Repr

/-- A run at handler entry. -/
def Run.start (c : Context) : Run :=
  { c := c, Body := [], Log := [], Panicked := false }

/-- Records an action in the log. -/
def Run.record (s : Run) (e : Effect) : Run :=
  { s with Log := s.Log ++ [e] }

/-- The assignment `c.Err = e`. -/
def Run.setErr (s : Run) (e : AppError) : Run :=
  { s with c := { s.c with Err := some e }, Log := s.Log ++ [Effect.SetErr e] }

/-- The call `c.SetInvalidParam(where, name)`. -/
def Run.SetInvalidParam (s : Run) (loc name : String) : Run :=
  s.setErr (NewInvalidParamError loc name)

/-- The call `w.Write(body)`. -/
def Run.Write (s : Run) (body : Json) : Run :=
  { s with Body := s.Body ++ [body], Log := s.Log ++ [Effect.Write body] }

/-- Modelled from the spec: `ReturnStatusOK` is not under src/; it writes the "plain
success acknowledgment". -/
def Run.ReturnStatusOK (s : Run) : Run :=
  s.Write Json.statusOK

/-- A nil-pointer dereference: the run stops here, faulted. -/
def Run.panic (s : Run) : Run :=
  { s with Panicked := true }

/-- Modelled from the spec: `HasPermissionToChannelContext` is not under src/; it "verifies
the caller has read access to the declared channel", and on denial stores a
`PermissionDenied` error in the context and returns false. -/
def Run.HasPermissionToChannelContext (s : Run) (env : Env) (channelId permission : String) :
    Bool × Run :=
  let s := s.record (Effect.PermissionCheck channelId)
  if env.HasPermissionToChannel s.c.Session.UserId channelId permission then (true, s)
  else (false, s.setErr (NewPermissionError s.c.Session.UserId permission))

/-- The handler `saveReaction`. -/
def saveReaction (env : Env) (c : Context) (r : Request) : Run :=
  let s := Run.start c
  match env.ReactionFromJson r.Body with
  | none => s.SetInvalidParam "saveReaction" "reaction"
  | some reaction =>
    if reaction.UserId ≠ c.Session.UserId then
      s.setErr
        { NewLocAppError "saveReaction" "api.reaction.save_reaction.user_id.app_error" [] "" with
          StatusCode := StatusForbidden }
    else
      let params := r.Vars
      let channelId := param params "channel_id"
      if len channelId ≠ 26 then s.SetInvalidParam "saveReaction" "channelId"
      else
        match s.HasPermissionToChannelContext env channelId PERMISSION_READ_CHANNEL with
        | (false, s) => s
        | (true, s) =>
          let postId := param params "post_id"
          if len postId ≠ 26 ∨ postId ≠ reaction.PostId then
            s.SetInvalidParam "saveReaction" "postId"
          else
            let s := s.record (Effect.PostGet reaction.PostId)
            match env.PostGet reaction.PostId with
            | StoreResult.err e => s.setErr e
            | StoreResult.data postList =>
              match postList.lookup postId with
              | none => s.panic
              | some post =>
                if post.ChannelId ≠ channelId then
                  s.setErr
                    { NewLocAppError "saveReaction"
                        "api.reaction.save_reaction.mismatched_channel_id.app_error" []
                        ("channelId=" ++ channelId ++ ", post.ChannelId=" ++ post.ChannelId ++
                          ", postId=" ++ postId) with
                      StatusCode := StatusBadRequest }
                else
                  let s := s.record (Effect.ReactionSave reaction)
                  match env.ReactionSave reaction with
                  | StoreResult.err e => s.setErr e
                  | StoreResult.data saved =>
                    let s := s.record
                      (Effect.Go ⟨WEBSOCKET_EVENT_REACTION_ADDED, channelId, reaction, post⟩)
                    s.Write saved.ToJson

/-- The handler `deleteReaction`. -/
def deleteReaction (env : Env) (c : Context) (r : Request) : Run :=
  let s := Run.start c
  match env.ReactionFromJson r.Body with
  | none => s.SetInvalidParam "deleteReaction" "reaction"
  | some reaction =>
    if reaction.UserId ≠ c.Session.UserId then
      s.setErr
        { NewLocAppError "deleteReaction" "api.reaction.delete_reaction.user_id.app_error" []
            "" with
          StatusCode := StatusForbidden }
    else
      let params := r.Vars
      let channelId := param params "channel_id"
      if len channelId ≠ 26 then s.SetInvalidParam "deleteReaction" "channelId"
      else
        match s.HasPermissionToChannelContext env channelId PERMISSION_READ_CHANNEL with
        | (false, s) => s
        | (true, s) =>
          let postId := param params "post_id"
          if len postId ≠ 26 ∨ postId ≠ reaction.PostId then
            s.SetInvalidParam "deleteReaction" "postId"
          else
            let s := s.record (Effect.PostGet reaction.PostId)
            match env.PostGet reaction.PostId with
            | StoreResult.err e => s.setErr e
            | StoreResult.data postList =>
              match postList.lookup postId with
              | none => s.panic
              | some post =>
                if post.ChannelId ≠ channelId then
                  s.setErr
                    { NewLocAppError "deleteReaction"
                        "api.reaction.delete_reaction.mismatched_channel_id.app_error" []
                        ("channelId=" ++ channelId ++ ", post.ChannelId=" ++ post.ChannelId ++
                          ", postId=" ++ postId) with
                      StatusCode := StatusBadRequest }
                else
                  let s := s.record (Effect.ReactionDelete reaction)
                  match env.ReactionDelete reaction with
                  | StoreResult.err e => s.setErr e
                  | StoreResult.data _ =>
                    let s := s.record
                      (Effect.Go ⟨WEBSOCKET_EVENT_REACTION_REMOVED, channelId, reaction, post⟩)
                    s.ReturnStatusOK

/-- The handler `listReactions`. -/
def listReactions (env : Env) (c : Context) (r : Request) : Run :=
  let s := Run.start c
  let params := r.Vars
  let channelId := param params "channel_id"
  if len channelId ≠ 26 then s.SetInvalidParam "deletePost" "channelId"
  else
    let postId := param params "post_id"
    if len postId ≠ 26 then s.SetInvalidParam "listReactions" "postId"
    else
      let s := s.record (Effect.PostGet postId)
      let pchan := env.PostGet postId
      match s.HasPermissionToChannelContext env channelId PERMISSION_READ_CHANNEL with
      | (false, s) => s
      | (true, s) =>
        match pchan with
        | StoreResult.err e => s.setErr e
        | StoreResult.data postList =>
          match postList.lookup postId with
          | none => s.panic
          | some post =>
            if post.ChannelId ≠ channelId then
              s.setErr
                { NewLocAppError "listReactions"
                    "api.reaction.list_reactions.mismatched_channel_id.app_error" []
                    ("channelId=" ++ channelId ++ ", post.ChannelId=" ++ post.ChannelId ++
                      ", postId=" ++ postId) with
                  StatusCode := StatusBadRequest }
            else
              let s := s.record (Effect.ReactionGetForPost postId)
              match env.ReactionGetForPost postId with
              | StoreResult.err e => s.setErr e
              | StoreResult.data reactions => s.Write (ReactionsToJson reactions)

/-! ## Observations on a run -/

/-- The body of the goroutine a `go sendReactionEvent(...)` statement starts; `now` is the
clock reading it takes. -/
def ReactionEventCall.run (call : ReactionEventCall) (now : Int) : List Emit × Post :=
  sendReactionEvent call.event call.channelId call.reaction call.post now

/-- Whether an action is a call on `Srv.Store` issued by the handler itself. -/
def Effect.isStoreCall : Effect → Bool
  | Effect.PostGet _ => true
  | Effect.ReactionSave _ => true
  | Effect.ReactionDelete _ => true
  | Effect.ReactionGetForPost _ => true
  | _ => false

/-- Whether an action is a call on the reaction store `Srv.Store.Reaction()`. -/
def Effect.isReactionCall : Effect → Bool
  | Effect.ReactionSave _ => true
  | Effect.ReactionDelete _ => true
  | Effect.ReactionGetForPost _ => true
  | _ => false

/-- Whether an action is the mutating call `Reaction().Save` or `Reaction().Delete`. -/
def Effect.isMutation : Effect → Bool
  | Effect.ReactionSave _ => true
  | Effect.ReactionDelete _ => true
  | _ => false

/-- Whether an action is an assignment to `c.Err`. -/
def Effect.isSetErr : Effect → Bool
  | Effect.SetErr _ => true
  | _ => false

/-- The store calls of a log, in order. -/
def storeCalls (log : List Effect) : List Effect := log.filter Effect.isStoreCall

/-- The reaction-store calls of a log, in order. -/
def reactionCalls (log : List Effect) : List Effect := log.filter Effect.isReactionCall

/-- The mutating calls of a log, in order. -/
def mutations (log : List Effect) : List Effect := log.filter Effect.isMutation

/-- The broadcasts a log launched, in order. -/
def launches (log : List Effect) : List ReactionEventCall :=
  log.filterMap fun x => match x with
    | Effect.Go call => some call
    | _ => none

/-- What a run did after it first assigned `c.Err`. -/
def afterFirstFailure (log : List Effect) : List Effect :=
  (log.dropWhile fun x => !x.isSetErr).drop 1

/-- The events a broadcast published, in order. -/
def published (es : List Emit) : List WebSocketEvent :=
  es.filterMap fun x => match x with
    | Emit.Publish m => some m
    | _ => none

/-- The channel post-list cache keys a broadcast invalidated, in order. -/
def invalidations (es : List Emit) : List String :=
  es.filterMap fun x => match x with
    | Emit.InvalidateCacheForChannelPosts k => some k
    | _ => none

/-- The `StructuralValidation` kind: an invalid-parameter error. -/
def AppError.isInvalidParam (e : AppError) : Bool :=
  e.Id == "api.context.invalid_param.app_error" && e.StatusCode == StatusBadRequest

/-- The context with `c.Err` assigned. -/
def Context.withErr (c : Context) (e : AppError) : Context := { c with Err := some e }

/-- The ownership error of `saveReaction` / `deleteReaction`: status 403. -/
def userIdError (loc id : String) : AppError :=
  { NewLocAppError loc id [] "" with StatusCode := StatusForbidden }

/-- The mismatched-channel error of the three handlers: status 400. -/
def mismatchedChannel (loc id channelId postChannelId postId : String) : AppError :=
  { NewLocAppError loc id []
      ("channelId=" ++ channelId ++ ", post.ChannelId=" ++ postChannelId ++
        ", postId=" ++ postId) with
    StatusCode := StatusBadRequest }

/-- Every check of `saveReaction` / `deleteReaction` that precedes the post fetch passes:
the body decodes to `reaction`, its owner is the caller, the channel id is 26 bytes long,
channel access is granted, the post id is 26 bytes long and is the reaction's post id. -/
def passesChecks (env : Env) (c : Context) (r : Request) (reaction : Reaction) : Prop :=
  env.ReactionFromJson r.Body = some reaction ∧
  reaction.UserId = c.Session.UserId ∧
  len (param r.Vars "channel_id") = 26 ∧
  env.HasPermissionToChannel c.Session.UserId (param r.Vars "channel_id")
    PERMISSION_READ_CHANNEL = true ∧
  len (param r.Vars "post_id") = 26 ∧
  param r.Vars "post_id" = reaction.PostId

instance (env : Env) (c : Context) (r : Request) (reaction : Reaction) :
    Decidable (passesChecks env c r reaction) := by
  unfold passesChecks
  infer_instance

/-! ## Sample inputs -/

/-- A well-formed 26-byte channel id. -/
def chanA : String := "cccccccccccccccccccccccccc"

/-- Another well-formed 26-byte channel id. -/
def chanB : String := "dddddddddddddddddddddddddd"

/-- A well-formed 26-byte post id. -/
def postA : String := "pppppppppppppppppppppppppp"

/-- A well-formed 26-byte user id. -/
def userA : String := "uuuuuuuuuuuuuuuuuuuuuuuuuu"

/-- Another well-formed 26-byte user id. -/
def userB : String := "vvvvvvvvvvvvvvvvvvvvvvvvvv"

/-- The context of a request authenticated as `userA`. -/
def ctxA : Context := { Session := { UserId := userA }, Err := none }

/-- The context of a request authenticated as `userB`. -/
def ctxB : Context := { Session := { UserId := userB }, Err := none }

/-- A request on channel `chanA`, post `postA`. -/
def reqA : Request := { Body := "body", Vars := [("channel_id", chanA), ("post_id", postA)] }

/-- A reaction of `userA` to `postA`. -/
def smile : Reaction := { UserId := userA, PostId := postA, EmojiName := "smile", CreateAt := 0 }

/-- The post `postA`, which lives in channel `chanA`. -/
def thePost : Post :=
  { Id := postA, ChannelId := chanA, UpdateAt := 1480000000000, HasReactions := false,
    Rest := [("Message", "hello")] }

/-- The list `Post().Get` resolves to in the sample environments. -/
def thePostList : PostList := { Order := [postA], Posts := [(postA, thePost)] }

/-- A store error. -/
def storeDown : AppError :=
  { NewLocAppError "SqlPostStore.Get" "store.sql_post.get.app_error" [] "db down" with
    StatusCode := StatusInternalServerError }

/-- An environment in which everything succeeds: the body decodes to `smile`, access is
granted, the post is found in `chanA`, the store accepts every call. -/
def envOk : Env :=
  { ReactionFromJson := fun _ => some smile
    HasPermissionToChannel := fun _ _ _ => true
    PostGet := fun _ => StoreResult.data thePostList
    ReactionSave := fun r => StoreResult.data { r with CreateAt := 1480000000001 }
    ReactionDelete := fun _ => StoreResult.data ()
    ReactionGetForPost := fun _ => StoreResult.data [smile] }

/-- A request that names channel `chanB` for post `postA`, which lives in `chanA`. -/
def reqB : Request := { Body := "body", Vars := [("channel_id", chanB), ("post_id", postA)] }

/-- A request whose channel id is too short. -/
def reqShort : Request := { Body := "body", Vars := [("channel_id", "short"), ("post_id", postA)] }

/-- A request whose post id is too short. -/
def reqShortPost : Request :=
  { Body := "body", Vars := [("channel_id", chanA), ("post_id", "short")] }

/-- A reaction of `userA` to `postA` with an empty emoji name. -/
def nameless : Reaction := { UserId := userA, PostId := postA, EmojiName := "", CreateAt := 0 }

/-- As `envOk`, with channel access denied. -/
def envDenied : Env := { envOk with HasPermissionToChannel := fun _ _ _ => false }

/-- As `envOk`, with a body that decodes to `nameless`. -/
def envNameless : Env := { envOk with ReactionFromJson := fun _ => some nameless }

/-- As `envOk`, with a body that does not decode. -/
def envBadBody : Env := { envOk with ReactionFromJson := fun _ => none }

/-- As `envOk`, with `Post().Get` failing. -/
def envGetErr : Env := { envOk with PostGet := fun _ => StoreResult.err storeDown }

/-- As `envGetErr`, with channel access denied. -/
def envDeniedGetErr : Env := { envGetErr with HasPermissionToChannel := fun _ _ _ => false }

/-- As `envOk`, with every reaction-store call failing. -/
def envReactionErr : Env :=
  { envOk with
    ReactionSave := fun _ => StoreResult.err storeDown
    ReactionDelete := fun _ => StoreResult.err storeDown
    ReactionGetForPost := fun _ => StoreResult.err storeDown }

/-- A reaction to `postA` that names no owner. -/
def ownerless : Reaction := { UserId := "", PostId := postA, EmojiName := "smile", CreateAt := 0 }

/-- As `envOk`, with a body that decodes to `ownerless`. -/
def envOwnerless : Env := { envOk with ReactionFromJson := fun _ => some ownerless }

/-- A reaction of `userA` whose post id is too short. -/
def shortPost : Reaction := { UserId := userA, PostId := "short", EmojiName := "smile", CreateAt := 0 }

/-- As `envOk`, with a body that decodes to `shortPost`. -/
def envShortPost : Env := { envOk with ReactionFromJson := fun _ => some shortPost }

/-- A post list that carries no post at all. -/
def emptyPostList : PostList := { Order := [], Posts := [] }

/-- As `envOk`, with `Post().Get` resolving without error to `emptyPostList`. -/
def envEmptyList : Env := { envOk with PostGet := fun _ => StoreResult.data emptyPostList }

/-! ## The paths of the handlers -/

/-- Every run of `saveReaction` takes one of ten paths; each path fixes the whole run. -/
theorem saveReaction_outcome (env : Env) (c : Context) (r : Request) :
    (env.ReactionFromJson r.Body = none ∧
      saveReaction env c r =
        ⟨c.withErr (NewInvalidParamError "saveReaction" "reaction"), [],
          [Effect.SetErr (NewInvalidParamError "saveReaction" "reaction")], false⟩) ∨
    (∃ reaction, env.ReactionFromJson r.Body = some reaction ∧
      reaction.UserId ≠ c.Session.UserId ∧
      saveReaction env c r =
        ⟨c.withErr
            (userIdError "saveReaction" "api.reaction.save_reaction.user_id.app_error"), [],
          [Effect.SetErr
            (userIdError "saveReaction" "api.reaction.save_reaction.user_id.app_error")],
          false⟩) ∨
    (∃ reaction, env.ReactionFromJson r.Body = some reaction ∧
      reaction.UserId = c.Session.UserId ∧ len (param r.Vars "channel_id") ≠ 26 ∧
      saveReaction env c r =
        ⟨c.withErr (NewInvalidParamError "saveReaction" "channelId"), [],
          [Effect.SetErr (NewInvalidParamError "saveReaction" "channelId")], false⟩) ∨
    (∃ reaction, env.ReactionFromJson r.Body = some reaction ∧
      reaction.UserId = c.Session.UserId ∧ len (param r.Vars "channel_id") = 26 ∧
      env.HasPermissionToChannel c.Session.UserId (param r.Vars "channel_id")
        PERMISSION_READ_CHANNEL = false ∧
      saveReaction env c r =
        ⟨c.withErr (NewPermissionError c.Session.UserId PERMISSION_READ_CHANNEL),
          [],
          [Effect.PermissionCheck (param r.Vars "channel_id"),
            Effect.SetErr (NewPermissionError c.Session.UserId PERMISSION_READ_CHANNEL)],
          false⟩) ∨
    (∃ reaction, env.ReactionFromJson r.Body = some reaction ∧
      reaction.UserId = c.Session.UserId ∧ len (param r.Vars "channel_id") = 26 ∧
      env.HasPermissionToChannel c.Session.UserId (param r.Vars "channel_id")
        PERMISSION_READ_CHANNEL = true ∧
      (len (param r.Vars "post_id") ≠ 26 ∨ param r.Vars "post_id" ≠ reaction.PostId) ∧
      saveReaction env c r =
        ⟨c.withErr (NewInvalidParamError "saveReaction" "postId"), [],
          [Effect.PermissionCheck (param r.Vars "channel_id"),
            Effect.SetErr (NewInvalidParamError "saveReaction" "postId")], false⟩) ∨
    (∃ reaction e, passesChecks env c r reaction ∧
      env.PostGet reaction.PostId = StoreResult.err e ∧
      saveReaction env c r =
        ⟨c.withErr e, [],
          [Effect.PermissionCheck (param r.Vars "channel_id"),
            Effect.PostGet reaction.PostId, Effect.SetErr e], false⟩) ∨
    (∃ reaction pl, passesChecks env c r reaction ∧
      env.PostGet reaction.PostId = StoreResult.data pl ∧
      pl.lookup (param r.Vars "post_id") = none ∧
      saveReaction env c r =
        ⟨c, [],
          [Effect.PermissionCheck (param r.Vars "channel_id"),
            Effect.PostGet reaction.PostId], true⟩) ∨
    (∃ reaction pl post, passesChecks env c r reaction ∧
      env.PostGet reaction.PostId = StoreResult.data pl ∧
      pl.lookup (param r.Vars "post_id") = some post ∧
      post.ChannelId ≠ param r.Vars "channel_id" ∧
      saveReaction env c r =
        ⟨c.withErr (mismatchedChannel "saveReaction"
            "api.reaction.save_reaction.mismatched_channel_id.app_error"
            (param r.Vars "channel_id") post.ChannelId (param r.Vars "post_id")), [],
          [Effect.PermissionCheck (param r.Vars "channel_id"),
            Effect.PostGet reaction.PostId,
            Effect.SetErr (mismatchedChannel "saveReaction"
              "api.reaction.save_reaction.mismatched_channel_id.app_error"
              (param r.Vars "channel_id") post.ChannelId (param r.Vars "post_id"))], false⟩) ∨
    (∃ reaction pl post e, passesChecks env c r reaction ∧
      env.PostGet reaction.PostId = StoreResult.data pl ∧
      pl.lookup (param r.Vars "post_id") = some post ∧
      post.ChannelId = param r.Vars "channel_id" ∧
      env.ReactionSave reaction = StoreResult.err e ∧
      saveReaction env c r =
        ⟨c.withErr e, [],
          [Effect.PermissionCheck (param r.Vars "channel_id"),
            Effect.PostGet reaction.PostId, Effect.ReactionSave reaction, Effect.SetErr e],
          false⟩) ∨
    (∃ reaction pl post saved, passesChecks env c r reaction ∧
      env.PostGet reaction.PostId = StoreResult.data pl ∧
      pl.lookup (param r.Vars "post_id") = some post ∧
      post.ChannelId = param r.Vars "channel_id" ∧
      env.ReactionSave reaction = StoreResult.data saved ∧
      saveReaction env c r =
        ⟨c, [saved.ToJson],
          [Effect.PermissionCheck (param r.Vars "channel_id"),
            Effect.PostGet reaction.PostId, Effect.ReactionSave reaction,
            Effect.Go ⟨WEBSOCKET_EVENT_REACTION_ADDED, param r.Vars "channel_id", reaction,
              post⟩,
            Effect.Write saved.ToJson], false⟩) := by
  cases hdec : env.ReactionFromJson r.Body with
  | none =>
    exact Or.inl ⟨rfl, by simp [saveReaction, hdec, Run.SetInvalidParam, Run.setErr, Run.start,
          Context.withErr]⟩
  | some reaction =>
    refine Or.inr ?_
    by_cases ho : reaction.UserId = c.Session.UserId
    swap
    · exact Or.inl ⟨reaction, rfl, ho, by
        simp [saveReaction, hdec, ho, Run.setErr, Run.start, userIdError, Context.withErr]⟩
    refine Or.inr ?_
    by_cases hc : len (param r.Vars "channel_id") = 26
    swap
    · exact Or.inl ⟨reaction, rfl, ho, hc, by
        simp [saveReaction, hdec, ho, hc, Run.SetInvalidParam, Run.setErr, Run.start,
          Context.withErr]⟩
    refine Or.inr ?_
    cases hp : env.HasPermissionToChannel c.Session.UserId (param r.Vars "channel_id")
      PERMISSION_READ_CHANNEL with
    | false =>
      exact Or.inl ⟨reaction, rfl, ho, hc, rfl, by
        simp [saveReaction, hdec, ho, hc, hp, Run.HasPermissionToChannelContext, Run.record,
          Run.setErr, Run.start,
          Context.withErr]⟩
    | true =>
      refine Or.inr ?_
      by_cases hl : len (param r.Vars "post_id") ≠ 26 ∨ param r.Vars "post_id" ≠ reaction.PostId
      · exact Or.inl ⟨reaction, rfl, ho, hc, rfl, hl, by
          simp [saveReaction, hdec, ho, hc, hp, hl, Run.HasPermissionToChannelContext,
            Run.record, Run.SetInvalidParam, Run.setErr, Run.start,
          Context.withErr]⟩
      refine Or.inr ?_
      have hl2 : len (param r.Vars "post_id") = 26 ∧ param r.Vars "post_id" = reaction.PostId := by
        simpa [not_or] using hl
      have hpass : passesChecks env c r reaction := ⟨hdec, ho, hc, hp, hl2.1, hl2.2⟩
      cases hg : env.PostGet reaction.PostId with
      | err e =>
        exact Or.inl ⟨reaction, e, hpass, hg, by
          simp [saveReaction, hdec, ho, hc, hp, hl, hg, Run.HasPermissionToChannelContext,
            Run.record, Run.setErr, Run.start,
          Context.withErr]⟩
      | data pl =>
        refine Or.inr ?_
        cases hk : pl.lookup (param r.Vars "post_id") with
        | none =>
          exact Or.inl ⟨reaction, pl, hpass, hg, hk, by
            simp [saveReaction, hdec, ho, hc, hp, hl, hg, hk, Run.HasPermissionToChannelContext,
              Run.record, Run.panic, Run.start,
          Context.withErr]⟩
        | some post =>
          refine Or.inr ?_
          by_cases hm : post.ChannelId = param r.Vars "channel_id"
          swap
          · exact Or.inl ⟨reaction, pl, post, hpass, hg, hk, hm, by
              simp [saveReaction, hdec, ho, hc, hp, hl, hg, hk, hm,
                Run.HasPermissionToChannelContext, Run.record, Run.setErr, Run.start,
                mismatchedChannel, Context.withErr]⟩
          refine Or.inr ?_
          cases hs : env.ReactionSave reaction with
          | err e =>
            exact Or.inl ⟨reaction, pl, post, e, hpass, hg, hk, hm, hs, by
              simp [saveReaction, hdec, ho, hc, hp, hl, hg, hk, hm, hs,
                Run.HasPermissionToChannelContext, Run.record, Run.setErr, Run.start,
          Context.withErr]⟩
          | data saved =>
            exact Or.inr ⟨reaction, pl, post, saved, hpass, hg, hk, hm, hs, by
              simp [saveReaction, hdec, ho, hc, hp, hl, hg, hk, hm, hs,
                Run.HasPermissionToChannelContext, Run.record, Run.Write, Run.start,
          Context.withErr]⟩

/-- Every run of `deleteReaction` takes one of ten paths; each path fixes the whole run. -/
theorem deleteReaction_outcome (env : Env) (c : Context) (r : Request) :
    (env.ReactionFromJson r.Body = none ∧
      deleteReaction env c r =
        ⟨c.withErr (NewInvalidParamError "deleteReaction" "reaction"), [],
          [Effect.SetErr (NewInvalidParamError "deleteReaction" "reaction")], false⟩) ∨
    (∃ reaction, env.ReactionFromJson r.Body = some reaction ∧
      reaction.UserId ≠ c.Session.UserId ∧
      deleteReaction env c r =
        ⟨c.withErr
            (userIdError "deleteReaction" "api.reaction.delete_reaction.user_id.app_error"), [],
          [Effect.SetErr
            (userIdError "deleteReaction" "api.reaction.delete_reaction.user_id.app_error")],
          false⟩) ∨
    (∃ reaction, env.ReactionFromJson r.Body = some reaction ∧
      reaction.UserId = c.Session.UserId ∧ len (param r.Vars "channel_id") ≠ 26 ∧
      deleteReaction env c r =
        ⟨c.withErr (NewInvalidParamError "deleteReaction" "channelId"), [],
          [Effect.SetErr (NewInvalidParamError "deleteReaction" "channelId")], false⟩) ∨
    (∃ reaction, env.ReactionFromJson r.Body = some reaction ∧
      reaction.UserId = c.Session.UserId ∧ len (param r.Vars "channel_id") = 26 ∧
      env.HasPermissionToChannel c.Session.UserId (param r.Vars "channel_id")
        PERMISSION_READ_CHANNEL = false ∧
      deleteReaction env c r =
        ⟨c.withErr (NewPermissionError c.Session.UserId PERMISSION_READ_CHANNEL),
          [],
          [Effect.PermissionCheck (param r.Vars "channel_id"),
            Effect.SetErr (NewPermissionError c.Session.UserId PERMISSION_READ_CHANNEL)],
          false⟩) ∨
    (∃ reaction, env.ReactionFromJson r.Body = some reaction ∧
      reaction.UserId = c.Session.UserId ∧ len (param r.Vars "channel_id") = 26 ∧
      env.HasPermissionToChannel c.Session.UserId (param r.Vars "channel_id")
        PERMISSION_READ_CHANNEL = true ∧
      (len (param r.Vars "post_id") ≠ 26 ∨ param r.Vars "post_id" ≠ reaction.PostId) ∧
      deleteReaction env c r =
        ⟨c.withErr (NewInvalidParamError "deleteReaction" "postId"), [],
          [Effect.PermissionCheck (param r.Vars "channel_id"),
            Effect.SetErr (NewInvalidParamError "deleteReaction" "postId")], false⟩) ∨
    (∃ reaction e, passesChecks env c r reaction ∧
      env.PostGet reaction.PostId = StoreResult.err e ∧
      deleteReaction env c r =
        ⟨c.withErr e, [],
          [Effect.PermissionCheck (param r.Vars "channel_id"),
            Effect.PostGet reaction.PostId, Effect.SetErr e], false⟩) ∨
    (∃ reaction pl, passesChecks env c r reaction ∧
      env.PostGet reaction.PostId = StoreResult.data pl ∧
      pl.lookup (param r.Vars "post_id") = none ∧
      deleteReaction env c r =
        ⟨c, [],
          [Effect.PermissionCheck (param r.Vars "channel_id"),
            Effect.PostGet reaction.PostId], true⟩) ∨
    (∃ reaction pl post, passesChecks env c r reaction ∧
      env.PostGet reaction.PostId = StoreResult.data pl ∧
      pl.lookup (param r.Vars "post_id") = some post ∧
      post.ChannelId ≠ param r.Vars "channel_id" ∧
      deleteReaction env c r =
        ⟨c.withErr (mismatchedChannel "deleteReaction"
            "api.reaction.delete_reaction.mismatched_channel_id.app_error"
            (param r.Vars "channel_id") post.ChannelId (param r.Vars "post_id")), [],
          [Effect.PermissionCheck (param r.Vars "channel_id"),
            Effect.PostGet reaction.PostId,
            Effect.SetErr (mismatchedChannel "deleteReaction"
              "api.reaction.delete_reaction.mismatched_channel_id.app_error"
              (param r.Vars "channel_id") post.ChannelId (param r.Vars "post_id"))], false⟩) ∨
    (∃ reaction pl post e, passesChecks env c r reaction ∧
      env.PostGet reaction.PostId = StoreResult.data pl ∧
      pl.lookup (param r.Vars "post_id") = some post ∧
      post.ChannelId = param r.Vars "channel_id" ∧
      env.ReactionDelete reaction = StoreResult.err e ∧
      deleteReaction env c r =
        ⟨c.withErr e, [],
          [Effect.PermissionCheck (param r.Vars "channel_id"),
            Effect.PostGet reaction.PostId, Effect.ReactionDelete reaction, Effect.SetErr e],
          false⟩) ∨
    (∃ reaction pl post, passesChecks env c r reaction ∧
      env.PostGet reaction.PostId = StoreResult.data pl ∧
      pl.lookup (param r.Vars "post_id") = some post ∧
      post.ChannelId = param r.Vars "channel_id" ∧
      env.ReactionDelete reaction = StoreResult.data () ∧
      deleteReaction env c r =
        ⟨c, [Json.statusOK],
          [Effect.PermissionCheck (param r.Vars "channel_id"),
            Effect.PostGet reaction.PostId, Effect.ReactionDelete reaction,
            Effect.Go ⟨WEBSOCKET_EVENT_REACTION_REMOVED, param r.Vars "channel_id", reaction,
              post⟩,
            Effect.Write Json.statusOK], false⟩) := by
  cases hdec : env.ReactionFromJson r.Body with
  | none =>
    exact Or.inl ⟨rfl, by simp [deleteReaction, hdec, Run.SetInvalidParam, Run.setErr, Run.start,
          Context.withErr]⟩
  | some reaction =>
    refine Or.inr ?_
    by_cases ho : reaction.UserId = c.Session.UserId
    swap
    · exact Or.inl ⟨reaction, rfl, ho, by
        simp [deleteReaction, hdec, ho, Run.setErr, Run.start, userIdError, Context.withErr]⟩
    refine Or.inr ?_
    by_cases hc : len (param r.Vars "channel_id") = 26
    swap
    · exact Or.inl ⟨reaction, rfl, ho, hc, by
        simp [deleteReaction, hdec, ho, hc, Run.SetInvalidParam, Run.setErr, Run.start,
          Context.withErr]⟩
    refine Or.inr ?_
    cases hp : env.HasPermissionToChannel c.Session.UserId (param r.Vars "channel_id")
      PERMISSION_READ_CHANNEL with
    | false =>
      exact Or.inl ⟨reaction, rfl, ho, hc, rfl, by
        simp [deleteReaction, hdec, ho, hc, hp, Run.HasPermissionToChannelContext, Run.record,
          Run.setErr, Run.start,
          Context.withErr]⟩
    | true =>
      refine Or.inr ?_
      by_cases hl : len (param r.Vars "post_id") ≠ 26 ∨ param r.Vars "post_id" ≠ reaction.PostId
      · exact Or.inl ⟨reaction, rfl, ho, hc, rfl, hl, by
          simp [deleteReaction, hdec, ho, hc, hp, hl, Run.HasPermissionToChannelContext,
            Run.record, Run.SetInvalidParam, Run.setErr, Run.start,
          Context.withErr]⟩
      refine Or.inr ?_
      have hl2 : len (param r.Vars "post_id") = 26 ∧ param r.Vars "post_id" = reaction.PostId := by
        simpa [not_or] using hl
      have hpass : passesChecks env c r reaction := ⟨hdec, ho, hc, hp, hl2.1, hl2.2⟩
      cases hg : env.PostGet reaction.PostId with
      | err e =>
        exact Or.inl ⟨reaction, e, hpass, hg, by
          simp [deleteReaction, hdec, ho, hc, hp, hl, hg, Run.HasPermissionToChannelContext,
            Run.record, Run.setErr, Run.start,
          Context.withErr]⟩
      | data pl =>
        refine Or.inr ?_
        cases hk : pl.lookup (param r.Vars "post_id") with
        | none =>
          exact Or.inl ⟨reaction, pl, hpass, hg, hk, by
            simp [deleteReaction, hdec, ho, hc, hp, hl, hg, hk, Run.HasPermissionToChannelContext,
              Run.record, Run.panic, Run.start,
          Context.withErr]⟩
        | some post =>
          refine Or.inr ?_
          by_cases hm : post.ChannelId = param r.Vars "channel_id"
          swap
          · exact Or.inl ⟨reaction, pl, post, hpass, hg, hk, hm, by
              simp [deleteReaction, hdec, ho, hc, hp, hl, hg, hk, hm,
                Run.HasPermissionToChannelContext, Run.record, Run.setErr, Run.start,
                mismatchedChannel, Context.withErr]⟩
          refine Or.inr ?_
          cases hs : env.ReactionDelete reaction with
          | err e =>
            exact Or.inl ⟨reaction, pl, post, e, hpass, hg, hk, hm, hs, by
              simp [deleteReaction, hdec, ho, hc, hp, hl, hg, hk, hm, hs,
                Run.HasPermissionToChannelContext, Run.record, Run.setErr, Run.start,
          Context.withErr]⟩
          | data u =>
            exact Or.inr ⟨reaction, pl, post, hpass, hg, hk, hm, hs, by
              simp [deleteReaction, hdec, ho, hc, hp, hl, hg, hk, hm, hs,
                Run.HasPermissionToChannelContext, Run.record, Run.Write, Run.ReturnStatusOK,
                Run.start,
          Context.withErr]⟩

/-- Every run of `listReactions` takes one of eight paths; each path fixes the whole run. -/
theorem listReactions_outcome (env : Env) (c : Context) (r : Request) :
    (len (param r.Vars "channel_id") ≠ 26 ∧
      listReactions env c r =
        ⟨c.withErr (NewInvalidParamError "deletePost" "channelId"), [],
          [Effect.SetErr (NewInvalidParamError "deletePost" "channelId")], false⟩) ∨
    (len (param r.Vars "channel_id") = 26 ∧ len (param r.Vars "post_id") ≠ 26 ∧
      listReactions env c r =
        ⟨c.withErr (NewInvalidParamError "listReactions" "postId"), [],
          [Effect.SetErr (NewInvalidParamError "listReactions" "postId")], false⟩) ∨
    (len (param r.Vars "channel_id") = 26 ∧ len (param r.Vars "post_id") = 26 ∧
      env.HasPermissionToChannel c.Session.UserId (param r.Vars "channel_id")
        PERMISSION_READ_CHANNEL = false ∧
      listReactions env c r =
        ⟨c.withErr (NewPermissionError c.Session.UserId PERMISSION_READ_CHANNEL), [],
          [Effect.PostGet (param r.Vars "post_id"),
            Effect.PermissionCheck (param r.Vars "channel_id"),
            Effect.SetErr (NewPermissionError c.Session.UserId PERMISSION_READ_CHANNEL)],
          false⟩) ∨
    (∃ e, len (param r.Vars "channel_id") = 26 ∧ len (param r.Vars "post_id") = 26 ∧
      env.HasPermissionToChannel c.Session.UserId (param r.Vars "channel_id")
        PERMISSION_READ_CHANNEL = true ∧
      env.PostGet (param r.Vars "post_id") = StoreResult.err e ∧
      listReactions env c r =
        ⟨c.withErr e, [],
          [Effect.PostGet (param r.Vars "post_id"),
            Effect.PermissionCheck (param r.Vars "channel_id"), Effect.SetErr e], false⟩) ∨
    (∃ pl, len (param r.Vars "channel_id") = 26 ∧ len (param r.Vars "post_id") = 26 ∧
      env.HasPermissionToChannel c.Session.UserId (param r.Vars "channel_id")
        PERMISSION_READ_CHANNEL = true ∧
      env.PostGet (param r.Vars "post_id") = StoreResult.data pl ∧
      pl.lookup (param r.Vars "post_id") = none ∧
      listReactions env c r =
        ⟨c, [],
          [Effect.PostGet (param r.Vars "post_id"),
            Effect.PermissionCheck (param r.Vars "channel_id")], true⟩) ∨
    (∃ pl post, len (param r.Vars "channel_id") = 26 ∧ len (param r.Vars "post_id") = 26 ∧
      env.HasPermissionToChannel c.Session.UserId (param r.Vars "channel_id")
        PERMISSION_READ_CHANNEL = true ∧
      env.PostGet (param r.Vars "post_id") = StoreResult.data pl ∧
      pl.lookup (param r.Vars "post_id") = some post ∧
      post.ChannelId ≠ param r.Vars "channel_id" ∧
      listReactions env c r =
        ⟨c.withErr (mismatchedChannel "listReactions"
            "api.reaction.list_reactions.mismatched_channel_id.app_error"
            (param r.Vars "channel_id") post.ChannelId (param r.Vars "post_id")), [],
          [Effect.PostGet (param r.Vars "post_id"),
            Effect.PermissionCheck (param r.Vars "channel_id"),
            Effect.SetErr (mismatchedChannel "listReactions"
              "api.reaction.list_reactions.mismatched_channel_id.app_error"
              (param r.Vars "channel_id") post.ChannelId (param r.Vars "post_id"))], false⟩) ∨
    (∃ pl post e, len (param r.Vars "channel_id") = 26 ∧ len (param r.Vars "post_id") = 26 ∧
      env.HasPermissionToChannel c.Session.UserId (param r.Vars "channel_id")
        PERMISSION_READ_CHANNEL = true ∧
      env.PostGet (param r.Vars "post_id") = StoreResult.data pl ∧
      pl.lookup (param r.Vars "post_id") = some post ∧
      post.ChannelId = param r.Vars "channel_id" ∧
      env.ReactionGetForPost (param r.Vars "post_id") = StoreResult.err e ∧
      listReactions env c r =
        ⟨c.withErr e, [],
          [Effect.PostGet (param r.Vars "post_id"),
            Effect.PermissionCheck (param r.Vars "channel_id"),
            Effect.ReactionGetForPost (param r.Vars "post_id"), Effect.SetErr e], false⟩) ∨
    (∃ pl post reactions, len (param r.Vars "channel_id") = 26 ∧
      len (param r.Vars "post_id") = 26 ∧
      env.HasPermissionToChannel c.Session.UserId (param r.Vars "channel_id")
        PERMISSION_READ_CHANNEL = true ∧
      env.PostGet (param r.Vars "post_id") = StoreResult.data pl ∧
      pl.lookup (param r.Vars "post_id") = some post ∧
      post.ChannelId = param r.Vars "channel_id" ∧
      env.ReactionGetForPost (param r.Vars "post_id") = StoreResult.data reactions ∧
      listReactions env c r =
        ⟨c, [ReactionsToJson reactions],
          [Effect.PostGet (param r.Vars "post_id"),
            Effect.PermissionCheck (param r.Vars "channel_id"),
            Effect.ReactionGetForPost (param r.Vars "post_id"),
            Effect.Write (ReactionsToJson reactions)], false⟩) := by
  by_cases hc : len (param r.Vars "channel_id") = 26
  swap
  · exact Or.inl ⟨hc, by
      simp [listReactions, hc, Run.SetInvalidParam, Run.setErr, Run.start, Context.withErr]⟩
  refine Or.inr ?_
  by_cases hl : len (param r.Vars "post_id") = 26
  swap
  · exact Or.inl ⟨hc, hl, by
      simp [listReactions, hc, hl, Run.SetInvalidParam, Run.setErr, Run.start,
        Context.withErr]⟩
  refine Or.inr ?_
  cases hp : env.HasPermissionToChannel c.Session.UserId (param r.Vars "channel_id")
    PERMISSION_READ_CHANNEL with
  | false =>
    exact Or.inl ⟨hc, hl, rfl, by
      simp [listReactions, hc, hl, hp, Run.HasPermissionToChannelContext, Run.record,
        Run.setErr, Run.start, Context.withErr]⟩
  | true =>
    refine Or.inr ?_
    cases hg : env.PostGet (param r.Vars "post_id") with
    | err e =>
      exact Or.inl ⟨e, hc, hl, rfl, rfl, by
        simp [listReactions, hc, hl, hp, hg, Run.HasPermissionToChannelContext, Run.record,
          Run.setErr, Run.start, Context.withErr]⟩
    | data pl =>
      refine Or.inr ?_
      cases hk : pl.lookup (param r.Vars "post_id") with
      | none =>
        exact Or.inl ⟨pl, hc, hl, rfl, rfl, hk, by
          simp [listReactions, hc, hl, hp, hg, hk, Run.HasPermissionToChannelContext,
            Run.record, Run.panic, Run.start]⟩
      | some post =>
        refine Or.inr ?_
        by_cases hm : post.ChannelId = param r.Vars "channel_id"
        swap
        · exact Or.inl ⟨pl, post, hc, hl, rfl, rfl, hk, hm, by
            simp [listReactions, hc, hl, hp, hg, hk, hm, Run.HasPermissionToChannelContext,
              Run.record, Run.setErr, Run.start, mismatchedChannel, Context.withErr]⟩
        refine Or.inr ?_
        cases hs : env.ReactionGetForPost (param r.Vars "post_id") with
        | err e =>
          exact Or.inl ⟨pl, post, e, hc, hl, rfl, rfl, hk, hm, rfl, by
            simp [listReactions, hc, hl, hp, hg, hk, hm, hs,
              Run.HasPermissionToChannelContext, Run.record, Run.setErr, Run.start,
              Context.withErr]⟩
        | data reactions =>
          exact Or.inr ⟨pl, post, reactions, hc, hl, rfl, rfl, hk, hm, rfl, by
            simp [listReactions, hc, hl, hp, hg, hk, hm, hs,
              Run.HasPermissionToChannelContext, Run.record, Run.Write, Run.start]⟩

/-! ## Ownership rejection -/

/-- C1: a save or delete request whose decoded reaction has a `userId` other than the
session's user id ends with the handler's permission error, status 403; the only thing the
run did is assign that error: no store call, no broadcast, no response body. -/
theorem ownership_rejection (env : Env) (c : Context) (r : Request) (reaction : Reaction)
    (hdec : env.ReactionFromJson r.Body = some reaction)
    (hne : reaction.UserId ≠ c.Session.UserId) :
    (∃ e, (saveReaction env c r).c.Err = some e ∧ e.StatusCode = StatusForbidden ∧
        e.Id = "api.reaction.save_reaction.user_id.app_error" ∧
        (saveReaction env c r).Log = [Effect.SetErr e]) ∧
      storeCalls (saveReaction env c r).Log = [] ∧
      launches (saveReaction env c r).Log = [] ∧
      (saveReaction env c r).Body = [] ∧
    (∃ e, (deleteReaction env c r).c.Err = some e ∧ e.StatusCode = StatusForbidden ∧
        e.Id = "api.reaction.delete_reaction.user_id.app_error" ∧
        (deleteReaction env c r).Log = [Effect.SetErr e]) ∧
      storeCalls (deleteReaction env c r).Log = [] ∧
      launches (deleteReaction env c r).Log = [] ∧
      (deleteReaction env c r).Body = [] := by
  simp [saveReaction, deleteReaction, hdec, hne, Run.setErr, Run.start, storeCalls, launches,
    NewLocAppError, Effect.isStoreCall]

/-- C1 at a concrete request: `userB` posts a reaction that names `userA` as its owner. -/
theorem ownership_rejection_witness :
    (∃ e, (saveReaction envOk ctxB reqA).c.Err = some e ∧ e.StatusCode = StatusForbidden ∧
        e.Id = "api.reaction.save_reaction.user_id.app_error" ∧
        (saveReaction envOk ctxB reqA).Log = [Effect.SetErr e]) ∧
      storeCalls (saveReaction envOk ctxB reqA).Log = [] ∧
      launches (saveReaction envOk ctxB reqA).Log = [] ∧
      (saveReaction envOk ctxB reqA).Body = [] ∧
    (∃ e, (deleteReaction envOk ctxB reqA).c.Err = some e ∧ e.StatusCode = StatusForbidden ∧
        e.Id = "api.reaction.delete_reaction.user_id.app_error" ∧
        (deleteReaction envOk ctxB reqA).Log = [Effect.SetErr e]) ∧
      storeCalls (deleteReaction envOk ctxB reqA).Log = [] ∧
      launches (deleteReaction envOk ctxB reqA).Log = [] ∧
      (deleteReaction envOk ctxB reqA).Body = [] :=
  ownership_rejection envOk ctxB reqA smile rfl (by decide)

/-! ## Cross-check rejection -/

/-- C2 as stated fails for `listReactions`: the post fetch is issued before the permission
check, so a request that is denied channel access has reached the fetch, the fetch resolves
to a post of another channel, and the run ends with the permission error (403), not with the
mismatched-channel error (400). -/
theorem cross_check_rejection_counterexample :
    Effect.PostGet postA ∈ (listReactions envDenied ctxA reqB).Log ∧
    envDenied.PostGet postA = StoreResult.data thePostList ∧
    thePostList.lookup (param reqB.Vars "post_id") = some thePost ∧
    thePost.ChannelId ≠ param reqB.Vars "channel_id" ∧
    (listReactions envDenied ctxA reqB).c.Err =
      some (NewPermissionError userA PERMISSION_READ_CHANNEL) ∧
    ¬ ∃ e, (listReactions envDenied ctxA reqB).c.Err = some e ∧
      e.StatusCode = StatusBadRequest := by
  have herr : (listReactions envDenied ctxA reqB).c.Err =
      some (NewPermissionError userA PERMISSION_READ_CHANNEL) := by decide
  refine ⟨by decide, rfl, by decide, by decide, herr, ?_⟩
  rintro ⟨e, he, hs⟩
  rw [herr] at he
  cases he
  revert hs
  decide

/-- C2, amended: when the post fetch was issued and resolves without error to a post whose
`channelId` differs from the `channel_id` path parameter, `saveReaction` and `deleteReaction`
end with the mismatched-channel error, status 400; `listReactions` does so when the channel
permission check passes.  In each case no reaction-store call is issued and no broadcast is
launched. -/
theorem cross_check_rejection (env : Env) (c : Context) (r : Request) (pid : String)
    (pl : PostList) (post : Post)
    (hget : env.PostGet pid = StoreResult.data pl)
    (hpost : pl.lookup (param r.Vars "post_id") = some post)
    (hne : post.ChannelId ≠ param r.Vars "channel_id") :
    (Effect.PostGet pid ∈ (saveReaction env c r).Log →
      (∃ e, (saveReaction env c r).c.Err = some e ∧ e.StatusCode = StatusBadRequest ∧
        e.Id = "api.reaction.save_reaction.mismatched_channel_id.app_error") ∧
      reactionCalls (saveReaction env c r).Log = [] ∧
      launches (saveReaction env c r).Log = []) ∧
    (Effect.PostGet pid ∈ (deleteReaction env c r).Log →
      (∃ e, (deleteReaction env c r).c.Err = some e ∧ e.StatusCode = StatusBadRequest ∧
        e.Id = "api.reaction.delete_reaction.mismatched_channel_id.app_error") ∧
      reactionCalls (deleteReaction env c r).Log = [] ∧
      launches (deleteReaction env c r).Log = []) ∧
    (env.HasPermissionToChannel c.Session.UserId (param r.Vars "channel_id")
        PERMISSION_READ_CHANNEL = true →
      Effect.PostGet pid ∈ (listReactions env c r).Log →
      (∃ e, (listReactions env c r).c.Err = some e ∧ e.StatusCode = StatusBadRequest ∧
        e.Id = "api.reaction.list_reactions.mismatched_channel_id.app_error") ∧
      reactionCalls (listReactions env c r).Log = [] ∧
      launches (listReactions env c r).Log = []) := by
  refine ⟨?_, ?_, ?_⟩
  · intro hin
    rcases saveReaction_outcome env c r with
      ⟨_, hr⟩ | ⟨_, _, _, hr⟩ | ⟨_, _, _, _, hr⟩ | ⟨_, _, _, _, _, hr⟩ |
      ⟨_, _, _, _, _, _, hr⟩ | ⟨reaction, e, hp, hg, hr⟩ | ⟨reaction, pl2, hp, hg, hk, hr⟩ |
      ⟨reaction, pl2, post2, hp, hg, hk, hm, hr⟩ |
      ⟨reaction, pl2, post2, e, hp, hg, hk, hm, hs, hr⟩ |
      ⟨reaction, pl2, post2, saved, hp, hg, hk, hm, hs, hr⟩ <;>
    rw [hr] at hin ⊢ <;>
    simp_all [reactionCalls, launches, Effect.isReactionCall, Context.withErr,
      mismatchedChannel, NewLocAppError]
  · intro hin
    rcases deleteReaction_outcome env c r with
      ⟨_, hr⟩ | ⟨_, _, _, hr⟩ | ⟨_, _, _, _, hr⟩ | ⟨_, _, _, _, _, hr⟩ |
      ⟨_, _, _, _, _, _, hr⟩ | ⟨reaction, e, hp, hg, hr⟩ | ⟨reaction, pl2, hp, hg, hk, hr⟩ |
      ⟨reaction, pl2, post2, hp, hg, hk, hm, hr⟩ |
      ⟨reaction, pl2, post2, e, hp, hg, hk, hm, hs, hr⟩ |
      ⟨reaction, pl2, post2, hp, hg, hk, hm, hs, hr⟩ <;>
    rw [hr] at hin ⊢ <;>
    simp_all [reactionCalls, launches, Effect.isReactionCall, Context.withErr,
      mismatchedChannel, NewLocAppError]
  · intro hperm hin
    rcases listReactions_outcome env c r with
      ⟨_, hr⟩ | ⟨_, _, hr⟩ | ⟨_, _, hd, hr⟩ | ⟨e, _, _, _, hg, hr⟩ |
      ⟨pl2, _, _, _, hg, hk, hr⟩ | ⟨pl2, post2, _, _, _, hg, hk, hm, hr⟩ |
      ⟨pl2, post2, e, _, _, _, hg, hk, hm, hs, hr⟩ |
      ⟨pl2, post2, reactions, _, _, _, hg, hk, hm, hs, hr⟩ <;>
    rw [hr] at hin ⊢ <;>
    simp_all [reactionCalls, launches, Effect.isReactionCall, Context.withErr,
      mismatchedChannel, NewLocAppError]

/-- C2, amended, at concrete requests: the post `postA` lives in `chanA`, the path names
`chanB`, access is granted. -/
theorem cross_check_rejection_witness :
    ((∃ e, (saveReaction envOk ctxA reqB).c.Err = some e ∧ e.StatusCode = StatusBadRequest ∧
        e.Id = "api.reaction.save_reaction.mismatched_channel_id.app_error") ∧
      reactionCalls (saveReaction envOk ctxA reqB).Log = [] ∧
      launches (saveReaction envOk ctxA reqB).Log = []) ∧
    ((∃ e, (deleteReaction envOk ctxA reqB).c.Err = some e ∧ e.StatusCode = StatusBadRequest ∧
        e.Id = "api.reaction.delete_reaction.mismatched_channel_id.app_error") ∧
      reactionCalls (deleteReaction envOk ctxA reqB).Log = [] ∧
      launches (deleteReaction envOk ctxA reqB).Log = []) ∧
    ((∃ e, (listReactions envOk ctxA reqB).c.Err = some e ∧ e.StatusCode = StatusBadRequest ∧
        e.Id = "api.reaction.list_reactions.mismatched_channel_id.app_error") ∧
      reactionCalls (listReactions envOk ctxA reqB).Log = [] ∧
      launches (listReactions envOk ctxA reqB).Log = []) :=
  ⟨(cross_check_rejection envOk ctxA reqB postA thePostList thePost rfl (by decide)
      (by decide)).1 (by decide),
    (cross_check_rejection envOk ctxA reqB postA thePostList thePost rfl (by decide)
      (by decide)).2.1 (by decide),
    (cross_check_rejection envOk ctxA reqB postA thePostList thePost rfl (by decide)
      (by decide)).2.2 rfl (by decide)⟩

/-! ## Identifier length -/

/-- C3 as stated fails for `saveReaction`: with a `channel_id` that is not 26 bytes long and
a reaction owned by another user, the run ends with the ownership error (403), which is not
an invalid-parameter error, because the ownership check comes first; and with a `post_id`
that is not 26 bytes long and channel access denied, the run ends with the permission error,
because the permission check comes before the `post_id` check. -/
theorem identifier_length_counterexample :
    (len (param reqShort.Vars "channel_id") ≠ 26 ∧
      (saveReaction envOk ctxB reqShort).c.Err =
        some (userIdError "saveReaction" "api.reaction.save_reaction.user_id.app_error") ∧
      ¬ ∃ e, (saveReaction envOk ctxB reqShort).c.Err = some e ∧ e.isInvalidParam = true) ∧
    (len (param reqShortPost.Vars "post_id") ≠ 26 ∧
      (saveReaction envDenied ctxA reqShortPost).c.Err =
        some (NewPermissionError userA PERMISSION_READ_CHANNEL) ∧
      ¬ ∃ e, (saveReaction envDenied ctxA reqShortPost).c.Err = some e ∧
        e.isInvalidParam = true) := by
  have herr : (saveReaction envOk ctxB reqShort).c.Err =
      some (userIdError "saveReaction" "api.reaction.save_reaction.user_id.app_error") := by
    decide
  have hden : (saveReaction envDenied ctxA reqShortPost).c.Err =
      some (NewPermissionError userA PERMISSION_READ_CHANNEL) := by
    decide
  refine ⟨⟨by decide, herr, ?_⟩, ⟨by decide, hden, ?_⟩⟩
  · rintro ⟨e, he, hs⟩
    rw [herr] at he
    cases he
    revert hs
    decide
  · rintro ⟨e, he, hs⟩
    rw [hden] at he
    cases he
    revert hs
    decide

/-- C3, amended: when `channel_id` or `post_id` is not 26 bytes long, `listReactions` ends
with an invalid-parameter error and has done nothing else.  `saveReaction` and
`deleteReaction` end with some error without any store call, broadcast or response body;
that error is an invalid-parameter error when no earlier check rejects first, that is when
the decoded reaction (if the body decodes) is owned by the caller and, should the channel id
be well-formed, channel access is granted. -/
theorem identifier_length_rejection (env : Env) (c : Context) (r : Request)
    (hbad : len (param r.Vars "channel_id") ≠ 26 ∨ len (param r.Vars "post_id") ≠ 26) :
    ((∃ e, (listReactions env c r).c.Err = some e ∧ e.isInvalidParam = true ∧
        (listReactions env c r).Log = [Effect.SetErr e]) ∧
      (listReactions env c r).Body = []) ∧
    ((∃ e, (saveReaction env c r).c.Err = some e) ∧
      storeCalls (saveReaction env c r).Log = [] ∧
      launches (saveReaction env c r).Log = [] ∧
      (saveReaction env c r).Body = [] ∧
      ((∀ reaction, env.ReactionFromJson r.Body = some reaction →
          reaction.UserId = c.Session.UserId) →
        (len (param r.Vars "channel_id") ≠ 26 ∨
          env.HasPermissionToChannel c.Session.UserId (param r.Vars "channel_id")
            PERMISSION_READ_CHANNEL = true) →
        ∃ e, (saveReaction env c r).c.Err = some e ∧ e.isInvalidParam = true)) ∧
    ((∃ e, (deleteReaction env c r).c.Err = some e) ∧
      storeCalls (deleteReaction env c r).Log = [] ∧
      launches (deleteReaction env c r).Log = [] ∧
      (deleteReaction env c r).Body = [] ∧
      ((∀ reaction, env.ReactionFromJson r.Body = some reaction →
          reaction.UserId = c.Session.UserId) →
        (len (param r.Vars "channel_id") ≠ 26 ∨
          env.HasPermissionToChannel c.Session.UserId (param r.Vars "channel_id")
            PERMISSION_READ_CHANNEL = true) →
        ∃ e, (deleteReaction env c r).c.Err = some e ∧ e.isInvalidParam = true)) := by
  refine ⟨?_, ?_, ?_⟩
  · rcases listReactions_outcome env c r with
      ⟨_, hr⟩ | ⟨_, _, hr⟩ | ⟨_, _, hd, hr⟩ | ⟨e, _, _, _, hg, hr⟩ |
      ⟨pl2, _, _, _, hg, hk, hr⟩ | ⟨pl2, post2, _, _, _, hg, hk, hm, hr⟩ |
      ⟨pl2, post2, e, _, _, _, hg, hk, hm, hs, hr⟩ |
      ⟨pl2, post2, reactions, _, _, _, hg, hk, hm, hs, hr⟩ <;>
    rw [hr] <;>
    simp_all [Context.withErr, AppError.isInvalidParam, NewInvalidParamError, NewLocAppError]
  · rcases saveReaction_outcome env c r with
      ⟨_, hr⟩ | ⟨_, _, _, hr⟩ | ⟨_, _, _, _, hr⟩ | ⟨_, _, _, _, _, hr⟩ |
      ⟨_, _, _, _, _, _, hr⟩ | ⟨reaction, e, ⟨hp1, hp2, hp3, hp4, hp5, hp6⟩, hg, hr⟩ | ⟨reaction, pl2, ⟨hp1, hp2, hp3, hp4, hp5, hp6⟩, hg, hk, hr⟩ |
      ⟨reaction, pl2, post2, ⟨hp1, hp2, hp3, hp4, hp5, hp6⟩, hg, hk, hm, hr⟩ |
      ⟨reaction, pl2, post2, e, ⟨hp1, hp2, hp3, hp4, hp5, hp6⟩, hg, hk, hm, hs, hr⟩ |
      ⟨reaction, pl2, post2, saved, ⟨hp1, hp2, hp3, hp4, hp5, hp6⟩, hg, hk, hm, hs, hr⟩ <;>
    rw [hr] <;>
    simp_all [passesChecks, storeCalls, launches, Effect.isStoreCall, Context.withErr,
      AppError.isInvalidParam, NewInvalidParamError, NewLocAppError]
  · rcases deleteReaction_outcome env c r with
      ⟨_, hr⟩ | ⟨_, _, _, hr⟩ | ⟨_, _, _, _, hr⟩ | ⟨_, _, _, _, _, hr⟩ |
      ⟨_, _, _, _, _, _, hr⟩ | ⟨reaction, e, ⟨hp1, hp2, hp3, hp4, hp5, hp6⟩, hg, hr⟩ | ⟨reaction, pl2, ⟨hp1, hp2, hp3, hp4, hp5, hp6⟩, hg, hk, hr⟩ |
      ⟨reaction, pl2, post2, ⟨hp1, hp2, hp3, hp4, hp5, hp6⟩, hg, hk, hm, hr⟩ |
      ⟨reaction, pl2, post2, e, ⟨hp1, hp2, hp3, hp4, hp5, hp6⟩, hg, hk, hm, hs, hr⟩ |
      ⟨reaction, pl2, post2, ⟨hp1, hp2, hp3, hp4, hp5, hp6⟩, hg, hk, hm, hs, hr⟩ <;>
    rw [hr] <;>
    simp_all [passesChecks, storeCalls, launches, Effect.isStoreCall, Context.withErr,
      AppError.isInvalidParam, NewInvalidParamError, NewLocAppError]

/-- C3, amended, at a concrete request whose channel id is `short`. -/
theorem identifier_length_rejection_witness :
    (len (param reqShort.Vars "channel_id") ≠ 26 ∨ len (param reqShort.Vars "post_id") ≠ 26) ∧
    (∃ e, (listReactions envOk ctxA reqShort).c.Err = some e ∧ e.isInvalidParam = true ∧
      (listReactions envOk ctxA reqShort).Log = [Effect.SetErr e]) ∧
    storeCalls (saveReaction envOk ctxA reqShort).Log = [] ∧
    (∃ e, (saveReaction envOk ctxA reqShort).c.Err = some e ∧ e.isInvalidParam = true) ∧
    storeCalls (deleteReaction envOk ctxA reqShort).Log = [] ∧
    (∃ e, (deleteReaction envOk ctxA reqShort).c.Err = some e ∧ e.isInvalidParam = true) :=
  ⟨Or.inl (by decide),
    (identifier_length_rejection envOk ctxA reqShort (Or.inl (by decide))).1.1,
    (identifier_length_rejection envOk ctxA reqShort (Or.inl (by decide))).2.1.2.1,
    (identifier_length_rejection envOk ctxA reqShort (Or.inl (by decide))).2.1.2.2.2.2
      (fun _ h => by cases h; rfl) (Or.inl (by decide)),
    (identifier_length_rejection envOk ctxA reqShort (Or.inl (by decide))).2.2.2.1,
    (identifier_length_rejection envOk ctxA reqShort (Or.inl (by decide))).2.2.2.2.2.2
      (fun _ h => by cases h; rfl) (Or.inl (by decide))⟩

/-! ## Descriptor validation -/

/-- C4 as stated fails: a decoded reaction with an empty `emojiName` passes every check of
the handlers, `Reaction().Save` / `Reaction().Delete` is issued for it and the handler sets
no error; and a decoded reaction with an empty `userId` is rejected with the ownership error
(403), which is not an invalid-parameter error. -/
theorem descriptor_validation_counterexample :
    (envNameless.ReactionFromJson reqA.Body = some nameless ∧ nameless.EmojiName = "" ∧
      Effect.ReactionSave nameless ∈ (saveReaction envNameless ctxA reqA).Log ∧
      (saveReaction envNameless ctxA reqA).c.Err = none ∧
      Effect.ReactionDelete nameless ∈ (deleteReaction envNameless ctxA reqA).Log ∧
      (deleteReaction envNameless ctxA reqA).c.Err = none) ∧
    (envOwnerless.ReactionFromJson reqA.Body = some ownerless ∧ ownerless.UserId = "" ∧
      (saveReaction envOwnerless ctxA reqA).c.Err =
        some (userIdError "saveReaction" "api.reaction.save_reaction.user_id.app_error") ∧
      (userIdError "saveReaction"
        "api.reaction.save_reaction.user_id.app_error").isInvalidParam = false) := by
  decide

/-- C4, amended: a body that does not decode is rejected with the invalid-parameter error
for `reaction`; a decoded reaction whose `postId` is not 26 bytes long is rejected with some
error, which is the invalid-parameter error for `postId` once the ownership, channel-id
length and permission checks have passed.  In both cases no store call is issued, no
broadcast launched and no body written. -/
theorem descriptor_validation (env : Env) (c : Context) (r : Request)
    (hbad : env.ReactionFromJson r.Body = none ∨
      ∃ reaction, env.ReactionFromJson r.Body = some reaction ∧ len reaction.PostId ≠ 26) :
    ((∃ e, (saveReaction env c r).c.Err = some e) ∧
      storeCalls (saveReaction env c r).Log = [] ∧
      launches (saveReaction env c r).Log = [] ∧
      (saveReaction env c r).Body = [] ∧
      (env.ReactionFromJson r.Body = none →
        (saveReaction env c r).c.Err = some (NewInvalidParamError "saveReaction" "reaction")) ∧
      (∀ reaction, env.ReactionFromJson r.Body = some reaction →
        reaction.UserId = c.Session.UserId →
        len (param r.Vars "channel_id") = 26 →
        env.HasPermissionToChannel c.Session.UserId (param r.Vars "channel_id")
          PERMISSION_READ_CHANNEL = true →
        (saveReaction env c r).c.Err = some (NewInvalidParamError "saveReaction" "postId"))) ∧
    ((∃ e, (deleteReaction env c r).c.Err = some e) ∧
      storeCalls (deleteReaction env c r).Log = [] ∧
      launches (deleteReaction env c r).Log = [] ∧
      (deleteReaction env c r).Body = [] ∧
      (env.ReactionFromJson r.Body = none →
        (deleteReaction env c r).c.Err =
          some (NewInvalidParamError "deleteReaction" "reaction")) ∧
      (∀ reaction, env.ReactionFromJson r.Body = some reaction →
        reaction.UserId = c.Session.UserId →
        len (param r.Vars "channel_id") = 26 →
        env.HasPermissionToChannel c.Session.UserId (param r.Vars "channel_id")
          PERMISSION_READ_CHANNEL = true →
        (deleteReaction env c r).c.Err =
          some (NewInvalidParamError "deleteReaction" "postId"))) := by
  refine ⟨?_, ?_⟩
  · rcases saveReaction_outcome env c r with
      ⟨_, hr⟩ | ⟨_, _, _, hr⟩ | ⟨_, _, _, _, hr⟩ | ⟨_, _, _, _, _, hr⟩ |
      ⟨_, _, _, _, _, _, hr⟩ | ⟨reaction, e, ⟨hp1, hp2, hp3, hp4, hp5, hp6⟩, hg, hr⟩ |
      ⟨reaction, pl2, ⟨hp1, hp2, hp3, hp4, hp5, hp6⟩, hg, hk, hr⟩ |
      ⟨reaction, pl2, post2, ⟨hp1, hp2, hp3, hp4, hp5, hp6⟩, hg, hk, hm, hr⟩ |
      ⟨reaction, pl2, post2, e, ⟨hp1, hp2, hp3, hp4, hp5, hp6⟩, hg, hk, hm, hs, hr⟩ |
      ⟨reaction, pl2, post2, saved, ⟨hp1, hp2, hp3, hp4, hp5, hp6⟩, hg, hk, hm, hs, hr⟩ <;>
    rw [hr] <;>
    simp_all [storeCalls, launches, Effect.isStoreCall, Context.withErr]
  · rcases deleteReaction_outcome env c r with
      ⟨_, hr⟩ | ⟨_, _, _, hr⟩ | ⟨_, _, _, _, hr⟩ | ⟨_, _, _, _, _, hr⟩ |
      ⟨_, _, _, _, _, _, hr⟩ | ⟨reaction, e, ⟨hp1, hp2, hp3, hp4, hp5, hp6⟩, hg, hr⟩ |
      ⟨reaction, pl2, ⟨hp1, hp2, hp3, hp4, hp5, hp6⟩, hg, hk, hr⟩ |
      ⟨reaction, pl2, post2, ⟨hp1, hp2, hp3, hp4, hp5, hp6⟩, hg, hk, hm, hr⟩ |
      ⟨reaction, pl2, post2, e, ⟨hp1, hp2, hp3, hp4, hp5, hp6⟩, hg, hk, hm, hs, hr⟩ |
      ⟨reaction, pl2, post2, ⟨hp1, hp2, hp3, hp4, hp5, hp6⟩, hg, hk, hm, hs, hr⟩ <;>
    rw [hr] <;>
    simp_all [storeCalls, launches, Effect.isStoreCall, Context.withErr]

/-- C4, amended, at two concrete requests: a body that does not decode, and a reaction whose
`postId` is `short`. -/
theorem descriptor_validation_witness :
    (saveReaction envBadBody ctxA reqA).c.Err =
      some (NewInvalidParamError "saveReaction" "reaction") ∧
    storeCalls (saveReaction envBadBody ctxA reqA).Log = [] ∧
    (deleteReaction envBadBody ctxA reqA).c.Err =
      some (NewInvalidParamError "deleteReaction" "reaction") ∧
    storeCalls (deleteReaction envBadBody ctxA reqA).Log = [] ∧
    (saveReaction envShortPost ctxA reqShortPost).c.Err =
      some (NewInvalidParamError "saveReaction" "postId") ∧
    storeCalls (saveReaction envShortPost ctxA reqShortPost).Log = [] :=
  ⟨(descriptor_validation envBadBody ctxA reqA (Or.inl rfl)).1.2.2.2.2.1 rfl,
    (descriptor_validation envBadBody ctxA reqA (Or.inl rfl)).1.2.1,
    (descriptor_validation envBadBody ctxA reqA (Or.inl rfl)).2.2.2.2.2.1 rfl,
    (descriptor_validation envBadBody ctxA reqA (Or.inl rfl)).2.2.1,
    (descriptor_validation envShortPost ctxA reqShortPost
      (Or.inr ⟨shortPost, rfl, by decide⟩)).1.2.2.2.2.2 shortPost rfl rfl (by decide) rfl,
    (descriptor_validation envShortPost ctxA reqShortPost
      (Or.inr ⟨shortPost, rfl, by decide⟩)).1.2.1⟩

/-! ## Store errors -/

/-- C5 as stated fails for `listReactions`: `Post().Get` is issued before the permission
check and resolves with an error, but the request is denied channel access, so the run ends
with the permission error and the store error is never read. -/
theorem store_error_surfaced_counterexample :
    Effect.PostGet postA ∈ (listReactions envDeniedGetErr ctxA reqA).Log ∧
    envDeniedGetErr.PostGet postA = StoreResult.err storeDown ∧
    (listReactions envDeniedGetErr ctxA reqA).c.Err =
      some (NewPermissionError userA PERMISSION_READ_CHANNEL) ∧
    (listReactions envDeniedGetErr ctxA reqA).c.Err ≠ some storeDown := by
  decide

/-- C5, amended: an error `e` with which an issued `Reaction().Save`, `Reaction().Delete`,
`Post().Get` (in `saveReaction` / `deleteReaction`) or `Reaction().GetForPost` resolves
becomes the handler error as it is, with no response body and no broadcast; for the
`Post().Get` of `listReactions` this holds when the channel permission check passes. -/
theorem store_error_surfaced (env : Env) (c : Context) (r : Request) (e : AppError) :
    (∀ reaction, Effect.ReactionSave reaction ∈ (saveReaction env c r).Log →
      env.ReactionSave reaction = StoreResult.err e →
      (saveReaction env c r).c.Err = some e ∧ (saveReaction env c r).Body = [] ∧
        launches (saveReaction env c r).Log = []) ∧
    (∀ reaction, Effect.ReactionDelete reaction ∈ (deleteReaction env c r).Log →
      env.ReactionDelete reaction = StoreResult.err e →
      (deleteReaction env c r).c.Err = some e ∧ (deleteReaction env c r).Body = [] ∧
        launches (deleteReaction env c r).Log = []) ∧
    (∀ pid, Effect.PostGet pid ∈ (saveReaction env c r).Log →
      env.PostGet pid = StoreResult.err e →
      (saveReaction env c r).c.Err = some e ∧ (saveReaction env c r).Body = [] ∧
        launches (saveReaction env c r).Log = []) ∧
    (∀ pid, Effect.PostGet pid ∈ (deleteReaction env c r).Log →
      env.PostGet pid = StoreResult.err e →
      (deleteReaction env c r).c.Err = some e ∧ (deleteReaction env c r).Body = [] ∧
        launches (deleteReaction env c r).Log = []) ∧
    (∀ pid, env.HasPermissionToChannel c.Session.UserId (param r.Vars "channel_id")
        PERMISSION_READ_CHANNEL = true →
      Effect.PostGet pid ∈ (listReactions env c r).Log →
      env.PostGet pid = StoreResult.err e →
      (listReactions env c r).c.Err = some e ∧ (listReactions env c r).Body = [] ∧
        launches (listReactions env c r).Log = []) ∧
    (∀ pid, Effect.ReactionGetForPost pid ∈ (listReactions env c r).Log →
      env.ReactionGetForPost pid = StoreResult.err e →
      (listReactions env c r).c.Err = some e ∧ (listReactions env c r).Body = [] ∧
        launches (listReactions env c r).Log = []) := by
  refine ⟨?_, ?_, ?_, ?_, ?_, ?_⟩
  · intro x hin hx
    rcases saveReaction_outcome env c r with
      ⟨_, hr⟩ | ⟨_, _, _, hr⟩ | ⟨_, _, _, _, hr⟩ | ⟨_, _, _, _, _, hr⟩ |
      ⟨_, _, _, _, _, _, hr⟩ | ⟨reaction, e, ⟨hp1, hp2, hp3, hp4, hp5, hp6⟩, hg, hr⟩ |
      ⟨reaction, pl2, ⟨hp1, hp2, hp3, hp4, hp5, hp6⟩, hg, hk, hr⟩ |
      ⟨reaction, pl2, post2, ⟨hp1, hp2, hp3, hp4, hp5, hp6⟩, hg, hk, hm, hr⟩ |
      ⟨reaction, pl2, post2, e, ⟨hp1, hp2, hp3, hp4, hp5, hp6⟩, hg, hk, hm, hs, hr⟩ |
      ⟨reaction, pl2, post2, saved, ⟨hp1, hp2, hp3, hp4, hp5, hp6⟩, hg, hk, hm, hs, hr⟩ <;>
    rw [hr] at hin ⊢ <;>
    simp_all [launches, Context.withErr]
  · intro x hin hx
    rcases deleteReaction_outcome env c r with
      ⟨_, hr⟩ | ⟨_, _, _, hr⟩ | ⟨_, _, _, _, hr⟩ | ⟨_, _, _, _, _, hr⟩ |
      ⟨_, _, _, _, _, _, hr⟩ | ⟨reaction, e, ⟨hp1, hp2, hp3, hp4, hp5, hp6⟩, hg, hr⟩ |
      ⟨reaction, pl2, ⟨hp1, hp2, hp3, hp4, hp5, hp6⟩, hg, hk, hr⟩ |
      ⟨reaction, pl2, post2, ⟨hp1, hp2, hp3, hp4, hp5, hp6⟩, hg, hk, hm, hr⟩ |
      ⟨reaction, pl2, post2, e, ⟨hp1, hp2, hp3, hp4, hp5, hp6⟩, hg, hk, hm, hs, hr⟩ |
      ⟨reaction, pl2, post2, ⟨hp1, hp2, hp3, hp4, hp5, hp6⟩, hg, hk, hm, hs, hr⟩ <;>
    rw [hr] at hin ⊢ <;>
    simp_all [launches, Context.withErr]
  · intro x hin hx
    rcases saveReaction_outcome env c r with
      ⟨_, hr⟩ | ⟨_, _, _, hr⟩ | ⟨_, _, _, _, hr⟩ | ⟨_, _, _, _, _, hr⟩ |
      ⟨_, _, _, _, _, _, hr⟩ | ⟨reaction, e, ⟨hp1, hp2, hp3, hp4, hp5, hp6⟩, hg, hr⟩ |
      ⟨reaction, pl2, ⟨hp1, hp2, hp3, hp4, hp5, hp6⟩, hg, hk, hr⟩ |
      ⟨reaction, pl2, post2, ⟨hp1, hp2, hp3, hp4, hp5, hp6⟩, hg, hk, hm, hr⟩ |
      ⟨reaction, pl2, post2, e, ⟨hp1, hp2, hp3, hp4, hp5, hp6⟩, hg, hk, hm, hs, hr⟩ |
      ⟨reaction, pl2, post2, saved, ⟨hp1, hp2, hp3, hp4, hp5, hp6⟩, hg, hk, hm, hs, hr⟩ <;>
    rw [hr] at hin ⊢ <;>
    simp_all [launches, Context.withErr]
  · intro x hin hx
    rcases deleteReaction_outcome env c r with
      ⟨_, hr⟩ | ⟨_, _, _, hr⟩ | ⟨_, _, _, _, hr⟩ | ⟨_, _, _, _, _, hr⟩ |
      ⟨_, _, _, _, _, _, hr⟩ | ⟨reaction, e, ⟨hp1, hp2, hp3, hp4, hp5, hp6⟩, hg, hr⟩ |
      ⟨reaction, pl2, ⟨hp1, hp2, hp3, hp4, hp5, hp6⟩, hg, hk, hr⟩ |
      ⟨reaction, pl2, post2, ⟨hp1, hp2, hp3, hp4, hp5, hp6⟩, hg, hk, hm, hr⟩ |
      ⟨reaction, pl2, post2, e, ⟨hp1, hp2, hp3, hp4, hp5, hp6⟩, hg, hk, hm, hs, hr⟩ |
      ⟨reaction, pl2, post2, ⟨hp1, hp2, hp3, hp4, hp5, hp6⟩, hg, hk, hm, hs, hr⟩ <;>
    rw [hr] at hin ⊢ <;>
    simp_all [launches, Context.withErr]
  · intro x hperm hin hx
    rcases listReactions_outcome env c r with
      ⟨_, hr⟩ | ⟨_, _, hr⟩ | ⟨_, _, hd, hr⟩ | ⟨e, _, _, _, hg, hr⟩ |
      ⟨pl2, _, _, _, hg, hk, hr⟩ | ⟨pl2, post2, _, _, _, hg, hk, hm, hr⟩ |
      ⟨pl2, post2, e, _, _, _, hg, hk, hm, hs, hr⟩ |
      ⟨pl2, post2, reactions, _, _, _, hg, hk, hm, hs, hr⟩ <;>
    rw [hr] at hin ⊢ <;>
    simp_all [launches, Context.withErr]
  · intro x hin hx
    rcases listReactions_outcome env c r with
      ⟨_, hr⟩ | ⟨_, _, hr⟩ | ⟨_, _, hd, hr⟩ | ⟨e, _, _, _, hg, hr⟩ |
      ⟨pl2, _, _, _, hg, hk, hr⟩ | ⟨pl2, post2, _, _, _, hg, hk, hm, hr⟩ |
      ⟨pl2, post2, e, _, _, _, hg, hk, hm, hs, hr⟩ |
      ⟨pl2, post2, reactions, _, _, _, hg, hk, hm, hs, hr⟩ <;>
    rw [hr] at hin ⊢ <;>
    simp_all [launches, Context.withErr]

/-- C5, amended, at concrete runs in which the store is down. -/
theorem store_error_surfaced_witness :
    (saveReaction envReactionErr ctxA reqA).c.Err = some storeDown ∧
    (deleteReaction envReactionErr ctxA reqA).c.Err = some storeDown ∧
    (saveReaction envGetErr ctxA reqA).c.Err = some storeDown ∧
    (deleteReaction envGetErr ctxA reqA).c.Err = some storeDown ∧
    (listReactions envGetErr ctxA reqA).c.Err = some storeDown ∧
    (listReactions envReactionErr ctxA reqA).c.Err = some storeDown :=
  ⟨((store_error_surfaced envReactionErr ctxA reqA storeDown).1 smile (by decide) rfl).1,
    ((store_error_surfaced envReactionErr ctxA reqA storeDown).2.1 smile (by decide) rfl).1,
    ((store_error_surfaced envGetErr ctxA reqA storeDown).2.2.1 postA (by decide) rfl).1,
    ((store_error_surfaced envGetErr ctxA reqA storeDown).2.2.2.1 postA (by decide) rfl).1,
    ((store_error_surfaced envGetErr ctxA reqA storeDown).2.2.2.2.1 postA rfl (by decide)
      rfl).1,
    ((store_error_surfaced envReactionErr ctxA reqA storeDown).2.2.2.2.2 postA (by decide)
      rfl).1⟩

/-! ## Responding -/

/-- C6: when every check passes (the body decodes, the owner is the caller, both path ids
are well-formed, access is granted, the post is fetched and lives in the named channel) and
`Reaction().Save` resolves to a payload, the response body of `saveReaction` is the encoding
of that payload and the context, hence `c.Err`, is left as it was; when `Reaction().Delete`
resolves without error, the response of `deleteReaction` is the status-OK acknowledgment and
the context is left as it was. -/
theorem responding (env : Env) (c : Context) (r : Request) (reaction : Reaction)
    (pl : PostList) (post : Post)
    (hdec : env.ReactionFromJson r.Body = some reaction)
    (hown : reaction.UserId = c.Session.UserId)
    (hchan : len (param r.Vars "channel_id") = 26)
    (hperm : env.HasPermissionToChannel c.Session.UserId (param r.Vars "channel_id")
      PERMISSION_READ_CHANNEL = true)
    (hlen : len (param r.Vars "post_id") = 26)
    (hpid : param r.Vars "post_id" = reaction.PostId)
    (hget : env.PostGet reaction.PostId = StoreResult.data pl)
    (hpost : pl.lookup (param r.Vars "post_id") = some post)
    (hsame : post.ChannelId = param r.Vars "channel_id") :
    (∀ saved, env.ReactionSave reaction = StoreResult.data saved →
      (saveReaction env c r).Body = [saved.ToJson] ∧
      (saveReaction env c r).c = c ∧
      (∀ e, Effect.SetErr e ∉ (saveReaction env c r).Log) ∧
      (saveReaction env c r).Panicked = false) ∧
    (∀ u, env.ReactionDelete reaction = StoreResult.data u →
      (deleteReaction env c r).Body = [Json.statusOK] ∧
      (deleteReaction env c r).c = c ∧
      (∀ e, Effect.SetErr e ∉ (deleteReaction env c r).Log) ∧
      (deleteReaction env c r).Panicked = false) := by
  refine ⟨?_, ?_⟩
  · intro saved0 hsaved
    rcases saveReaction_outcome env c r with
      ⟨_, hr⟩ | ⟨_, _, _, hr⟩ | ⟨_, _, _, _, hr⟩ | ⟨_, _, _, _, _, hr⟩ |
      ⟨_, _, _, _, _, _, hr⟩ | ⟨reaction, e, ⟨hp1, hp2, hp3, hp4, hp5, hp6⟩, hg, hr⟩ |
      ⟨reaction, pl2, ⟨hp1, hp2, hp3, hp4, hp5, hp6⟩, hg, hk, hr⟩ |
      ⟨reaction, pl2, post2, ⟨hp1, hp2, hp3, hp4, hp5, hp6⟩, hg, hk, hm, hr⟩ |
      ⟨reaction, pl2, post2, e, ⟨hp1, hp2, hp3, hp4, hp5, hp6⟩, hg, hk, hm, hs, hr⟩ |
      ⟨reaction, pl2, post2, saved, ⟨hp1, hp2, hp3, hp4, hp5, hp6⟩, hg, hk, hm, hs, hr⟩ <;>
    rw [hr] <;>
    simp_all
  · intro u hu
    rcases deleteReaction_outcome env c r with
      ⟨_, hr⟩ | ⟨_, _, _, hr⟩ | ⟨_, _, _, _, hr⟩ | ⟨_, _, _, _, _, hr⟩ |
      ⟨_, _, _, _, _, _, hr⟩ | ⟨reaction, e, ⟨hp1, hp2, hp3, hp4, hp5, hp6⟩, hg, hr⟩ |
      ⟨reaction, pl2, ⟨hp1, hp2, hp3, hp4, hp5, hp6⟩, hg, hk, hr⟩ |
      ⟨reaction, pl2, post2, ⟨hp1, hp2, hp3, hp4, hp5, hp6⟩, hg, hk, hm, hr⟩ |
      ⟨reaction, pl2, post2, e, ⟨hp1, hp2, hp3, hp4, hp5, hp6⟩, hg, hk, hm, hs, hr⟩ |
      ⟨reaction, pl2, post2, ⟨hp1, hp2, hp3, hp4, hp5, hp6⟩, hg, hk, hm, hs, hr⟩ <;>
    rw [hr] <;>
    simp_all

/-- C6 at a concrete request: `userA` reacts to `postA` in `chanA`. -/
theorem responding_witness :
    (saveReaction envOk ctxA reqA).Body =
      [Reaction.ToJson { smile with CreateAt := 1480000000001 }] ∧
    (saveReaction envOk ctxA reqA).c.Err = none ∧
    (deleteReaction envOk ctxA reqA).Body = [Json.statusOK] ∧
    (deleteReaction envOk ctxA reqA).c.Err = none :=
  ⟨((responding envOk ctxA reqA smile thePostList thePost rfl rfl (by decide) rfl (by decide)
      rfl rfl (by decide) rfl).1 _ rfl).1,
    congrArg Context.Err
      ((responding envOk ctxA reqA smile thePostList thePost rfl rfl (by decide) rfl
        (by decide) rfl rfl (by decide) rfl).1 _ rfl).2.1,
    ((responding envOk ctxA reqA smile thePostList thePost rfl rfl (by decide) rfl (by decide)
      rfl rfl (by decide) rfl).2 () rfl).1,
    congrArg Context.Err
      ((responding envOk ctxA reqA smile thePostList thePost rfl rfl (by decide) rfl
        (by decide) rfl rfl (by decide) rfl).2 () rfl).2.1⟩

/-! ## Broadcast content -/

/-- C7: whatever the event type, channel id, reaction, post and clock reading,
`sendReactionEvent` publishes exactly two events, in this order, both on the given channel
id: the event of the given type carrying the reaction, then a `post_edited` event carrying
the post with `HasReactions` true, `UpdateAt` the clock reading and every other field as it
was. -/
theorem broadcast_content (event channelId : String) (reaction : Reaction) (post : Post)
    (now : Int) :
    published (sendReactionEvent event channelId reaction post now).1 =
      [{ Event := event, TeamId := "", ChannelId := channelId, UserId := "", OmitUsers := [],
         Data := [("reaction", reaction.ToJson)] },
       { Event := WEBSOCKET_EVENT_POST_EDITED, TeamId := "", ChannelId := channelId,
         UserId := "", OmitUsers := [],
         Data := [("post", Post.ToJson
           { Id := post.Id, ChannelId := post.ChannelId, UpdateAt := now, HasReactions := true,
             Rest := post.Rest })] }] := by
  simp [sendReactionEvent, published, NewWebSocketEvent, WebSocketEvent.Add]

/-! ## The updateAt invariant -/

/-- C8 at the failing input: `sendReactionEvent` stores the clock reading in `UpdateAt`
whatever the post held before, so with a clock reading equal to the stored value the
`UpdateAt` carried by the `post_edited` event has not changed, and with a clock reading
behind the stored value it has decreased. -/
theorem updateAt_follows_clock :
    published
        (sendReactionEvent WEBSOCKET_EVENT_REACTION_ADDED chanA smile thePost
          thePost.UpdateAt).1 =
      [{ Event := WEBSOCKET_EVENT_REACTION_ADDED, TeamId := "", ChannelId := chanA,
         UserId := "", OmitUsers := [], Data := [("reaction", smile.ToJson)] },
       { Event := WEBSOCKET_EVENT_POST_EDITED, TeamId := "", ChannelId := chanA,
         UserId := "", OmitUsers := [],
         Data := [("post", Post.ToJson { thePost with HasReactions := true })] }] ∧
    (sendReactionEvent WEBSOCKET_EVENT_REACTION_ADDED chanA smile thePost
      thePost.UpdateAt).2.UpdateAt = thePost.UpdateAt ∧
    (sendReactionEvent WEBSOCKET_EVENT_REACTION_ADDED chanA smile thePost
      (thePost.UpdateAt - 1)).2.UpdateAt < thePost.UpdateAt := by
  decide

/-! ## Channel post-list cache -/

/-- C9: in a run of `saveReaction` / `deleteReaction` whose mutating call was issued and
resolved without error, exactly one broadcast is launched; it is addressed to the
`channel_id` path parameter, the post it is given lives in that channel, and whatever the
clock reading it invalidates the channel post-list cache exactly once, under that channel
id, and publishes only on that channel id. -/
theorem channel_posts_cache_invalidated (env : Env) (c : Context) (r : Request) :
    (∀ reaction saved, Effect.ReactionSave reaction ∈ (saveReaction env c r).Log →
      env.ReactionSave reaction = StoreResult.data saved →
      (launches (saveReaction env c r).Log).length = 1 ∧
      ∀ call ∈ launches (saveReaction env c r).Log,
        call.channelId = param r.Vars "channel_id" ∧
        call.post.ChannelId = param r.Vars "channel_id" ∧
        ∀ now, invalidations (call.run now).1 = [param r.Vars "channel_id"] ∧
          ∀ m ∈ published (call.run now).1, m.ChannelId = param r.Vars "channel_id") ∧
    (∀ reaction u, Effect.ReactionDelete reaction ∈ (deleteReaction env c r).Log →
      env.ReactionDelete reaction = StoreResult.data u →
      (launches (deleteReaction env c r).Log).length = 1 ∧
      ∀ call ∈ launches (deleteReaction env c r).Log,
        call.channelId = param r.Vars "channel_id" ∧
        call.post.ChannelId = param r.Vars "channel_id" ∧
        ∀ now, invalidations (call.run now).1 = [param r.Vars "channel_id"] ∧
          ∀ m ∈ published (call.run now).1, m.ChannelId = param r.Vars "channel_id") := by
  refine ⟨?_, ?_⟩
  · intro x saved0 hin hx
    rcases saveReaction_outcome env c r with
      ⟨_, hr⟩ | ⟨_, _, _, hr⟩ | ⟨_, _, _, _, hr⟩ | ⟨_, _, _, _, _, hr⟩ |
      ⟨_, _, _, _, _, _, hr⟩ | ⟨reaction, e, hp, hg, hr⟩ | ⟨reaction, pl2, hp, hg, hk, hr⟩ |
      ⟨reaction, pl2, post2, hp, hg, hk, hm, hr⟩ |
      ⟨reaction, pl2, post2, e, hp, hg, hk, hm, hs, hr⟩ |
      ⟨reaction, pl2, post2, saved, hp, hg, hk, hm, hs, hr⟩ <;>
    rw [hr] at hin ⊢ <;>
    simp_all [launches, invalidations, published, ReactionEventCall.run, sendReactionEvent,
      NewWebSocketEvent, WebSocketEvent.Add]
  · intro x u hin hx
    rcases deleteReaction_outcome env c r with
      ⟨_, hr⟩ | ⟨_, _, _, hr⟩ | ⟨_, _, _, _, hr⟩ | ⟨_, _, _, _, _, hr⟩ |
      ⟨_, _, _, _, _, _, hr⟩ | ⟨reaction, e, hp, hg, hr⟩ | ⟨reaction, pl2, hp, hg, hk, hr⟩ |
      ⟨reaction, pl2, post2, hp, hg, hk, hm, hr⟩ |
      ⟨reaction, pl2, post2, e, hp, hg, hk, hm, hs, hr⟩ |
      ⟨reaction, pl2, post2, hp, hg, hk, hm, hs, hr⟩ <;>
    rw [hr] at hin ⊢ <;>
    simp_all [launches, invalidations, published, ReactionEventCall.run, sendReactionEvent,
      NewWebSocketEvent, WebSocketEvent.Add]

/-- C9 at a concrete request: the broadcasts of a successful save and of a successful
delete on `chanA` each invalidate the post-list cache of `chanA` once. -/
theorem channel_posts_cache_invalidated_witness :
    (launches (saveReaction envOk ctxA reqA).Log).length = 1 ∧
    (∀ call ∈ launches (saveReaction envOk ctxA reqA).Log,
      invalidations (call.run 1480000000002).1 = [chanA]) ∧
    (launches (deleteReaction envOk ctxA reqA).Log).length = 1 ∧
    (∀ call ∈ launches (deleteReaction envOk ctxA reqA).Log,
      invalidations (call.run 1480000000002).1 = [chanA]) :=
  ⟨((channel_posts_cache_invalidated envOk ctxA reqA).1 smile _ (by decide) rfl).1,
    fun call h =>
      ((((channel_posts_cache_invalidated envOk ctxA reqA).1 smile _ (by decide) rfl).2
        call h).2.2 1480000000002).1,
    ((channel_posts_cache_invalidated envOk ctxA reqA).2 smile () (by decide) rfl).1,
    fun call h =>
      ((((channel_posts_cache_invalidated envOk ctxA reqA).2 smile () (by decide) rfl).2
        call h).2.2 1480000000002).1⟩

/-! ## Abort before mutation, mutation at most once -/

/-- C10: in every run of `saveReaction` / `deleteReaction` the mutating store call is issued
at most once; when it is issued every earlier step has passed (the body decoded, the owner
is the caller, both path ids are well-formed, access is granted, the post was fetched
without error and lives in the named channel); nothing at all, so no mutating call, follows
the first assignment of `c.Err`; at most one broadcast is launched, and one is launched
exactly when the mutating call was issued and resolved without error. -/
theorem mutation_only_after_checks (env : Env) (c : Context) (r : Request) :
    ((mutations (saveReaction env c r).Log).length ≤ 1 ∧
      (∀ x ∈ mutations (saveReaction env c r).Log, ∃ reaction pl post,
        x = Effect.ReactionSave reaction ∧ passesChecks env c r reaction ∧
        env.PostGet reaction.PostId = StoreResult.data pl ∧
        pl.lookup (param r.Vars "post_id") = some post ∧
        post.ChannelId = param r.Vars "channel_id") ∧
      afterFirstFailure (saveReaction env c r).Log = [] ∧
      (launches (saveReaction env c r).Log).length ≤ 1 ∧
      (launches (saveReaction env c r).Log ≠ [] ↔
        ∃ reaction saved, Effect.ReactionSave reaction ∈ (saveReaction env c r).Log ∧
          env.ReactionSave reaction = StoreResult.data saved)) ∧
    ((mutations (deleteReaction env c r).Log).length ≤ 1 ∧
      (∀ x ∈ mutations (deleteReaction env c r).Log, ∃ reaction pl post,
        x = Effect.ReactionDelete reaction ∧ passesChecks env c r reaction ∧
        env.PostGet reaction.PostId = StoreResult.data pl ∧
        pl.lookup (param r.Vars "post_id") = some post ∧
        post.ChannelId = param r.Vars "channel_id") ∧
      afterFirstFailure (deleteReaction env c r).Log = [] ∧
      (launches (deleteReaction env c r).Log).length ≤ 1 ∧
      (launches (deleteReaction env c r).Log ≠ [] ↔
        ∃ reaction u, Effect.ReactionDelete reaction ∈ (deleteReaction env c r).Log ∧
          env.ReactionDelete reaction = StoreResult.data u)) := by
  refine ⟨?_, ?_⟩
  · rcases saveReaction_outcome env c r with
      ⟨_, hr⟩ | ⟨_, _, _, hr⟩ | ⟨_, _, _, _, hr⟩ | ⟨_, _, _, _, _, hr⟩ |
      ⟨_, _, _, _, _, _, hr⟩ | ⟨reaction, e, hp, hg, hr⟩ | ⟨reaction, pl2, hp, hg, hk, hr⟩ |
      ⟨reaction, pl2, post2, hp, hg, hk, hm, hr⟩ |
      ⟨reaction, pl2, post2, e, hp, hg, hk, hm, hs, hr⟩ |
      ⟨reaction, pl2, post2, saved, hp, hg, hk, hm, hs, hr⟩ <;>
    rw [hr] <;>
    simp_all [mutations, launches, afterFirstFailure, Effect.isMutation, Effect.isSetErr,
      List.dropWhile]
  · rcases deleteReaction_outcome env c r with
      ⟨_, hr⟩ | ⟨_, _, _, hr⟩ | ⟨_, _, _, _, hr⟩ | ⟨_, _, _, _, _, hr⟩ |
      ⟨_, _, _, _, _, _, hr⟩ | ⟨reaction, e, hp, hg, hr⟩ | ⟨reaction, pl2, hp, hg, hk, hr⟩ |
      ⟨reaction, pl2, post2, hp, hg, hk, hm, hr⟩ |
      ⟨reaction, pl2, post2, e, hp, hg, hk, hm, hs, hr⟩ |
      ⟨reaction, pl2, post2, hp, hg, hk, hm, hs, hr⟩ <;>
    rw [hr] <;>
    simp_all [mutations, launches, afterFirstFailure, Effect.isMutation, Effect.isSetErr,
      List.dropWhile]

/-- C10 at concrete runs: a successful save issues the mutating call once, after every
check, and launches the broadcast; a save the store rejects launches none and does nothing
after reporting the error. -/
theorem mutation_only_after_checks_witness :
    mutations (saveReaction envOk ctxA reqA).Log = [Effect.ReactionSave smile] ∧
    (∃ reaction pl post, Effect.ReactionSave smile = Effect.ReactionSave reaction ∧
      passesChecks envOk ctxA reqA reaction ∧
      envOk.PostGet reaction.PostId = StoreResult.data pl ∧
      pl.lookup (param reqA.Vars "post_id") = some post ∧
      post.ChannelId = param reqA.Vars "channel_id") ∧
    launches (saveReaction envOk ctxA reqA).Log ≠ [] ∧
    afterFirstFailure (saveReaction envReactionErr ctxA reqA).Log = [] ∧
    (launches (deleteReaction envReactionErr ctxA reqA).Log).length ≤ 1 :=
  ⟨by decide,
    (mutation_only_after_checks envOk ctxA reqA).1.2.1 (Effect.ReactionSave smile) (by decide),
    (mutation_only_after_checks envOk ctxA reqA).1.2.2.2.2.mpr ⟨smile, _, by decide, rfl⟩,
    (mutation_only_after_checks envReactionErr ctxA reqA).1.2.2.1,
    (mutation_only_after_checks envReactionErr ctxA reqA).2.2.2.2.1⟩

/-! ## Cross-check safety -/

/-- With a store result that carries exactly one of payload and error, a handler run faults
exactly when the read of `Post().Get` resolved without error to a list that has no entry for
the `post_id` path parameter. -/
theorem faults_iff_entry_missing (env : Env) (c : Context) (r : Request) :
    ((saveReaction env c r).Panicked = true ↔
      ∃ reaction pl, passesChecks env c r reaction ∧
        env.PostGet reaction.PostId = StoreResult.data pl ∧
        pl.lookup (param r.Vars "post_id") = none) ∧
    ((deleteReaction env c r).Panicked = true ↔
      ∃ reaction pl, passesChecks env c r reaction ∧
        env.PostGet reaction.PostId = StoreResult.data pl ∧
        pl.lookup (param r.Vars "post_id") = none) ∧
    ((listReactions env c r).Panicked = true ↔
      ∃ pl, len (param r.Vars "channel_id") = 26 ∧ len (param r.Vars "post_id") = 26 ∧
        env.HasPermissionToChannel c.Session.UserId (param r.Vars "channel_id")
          PERMISSION_READ_CHANNEL = true ∧
        env.PostGet (param r.Vars "post_id") = StoreResult.data pl ∧
        pl.lookup (param r.Vars "post_id") = none) := by
  refine ⟨⟨?_, ?_⟩, ⟨?_, ?_⟩, ⟨?_, ?_⟩⟩
  · intro h
    rcases saveReaction_outcome env c r with
        ⟨_, hr⟩ | ⟨_, _, _, hr⟩ | ⟨_, _, _, _, hr⟩ | ⟨_, _, _, _, _, hr⟩ |
        ⟨_, _, _, _, _, _, hr⟩ | ⟨reaction, e, hp, hg, hr⟩ |
        ⟨reaction, pl2, hp, hg, hk, hr⟩ |
        ⟨reaction, pl2, post2, hp, hg, hk, hm, hr⟩ |
        ⟨reaction, pl2, post2, e, hp, hg, hk, hm, hs, hr⟩ |
        ⟨reaction, pl2, post2, saved, hp, hg, hk, hm, hs, hr⟩
    all_goals rw [hr] at h
    all_goals first
      | exact ⟨reaction, pl2, hp, hg, hk⟩
      | simp at h
  · rintro ⟨reaction, pl, ⟨h1, h2, h3, h4, h5, h6⟩, hg, hk⟩
    rw [← h6] at hg
    simp [saveReaction, h1, h2, h3, h4, h5, ← h6, hg, hk, Run.HasPermissionToChannelContext,
      Run.record, Run.panic, Run.start]
  · intro h
    rcases deleteReaction_outcome env c r with
        ⟨_, hr⟩ | ⟨_, _, _, hr⟩ | ⟨_, _, _, _, hr⟩ | ⟨_, _, _, _, _, hr⟩ |
        ⟨_, _, _, _, _, _, hr⟩ | ⟨reaction, e, hp, hg, hr⟩ |
        ⟨reaction, pl2, hp, hg, hk, hr⟩ |
        ⟨reaction, pl2, post2, hp, hg, hk, hm, hr⟩ |
        ⟨reaction, pl2, post2, e, hp, hg, hk, hm, hs, hr⟩ |
        ⟨reaction, pl2, post2, hp, hg, hk, hm, hs, hr⟩
    all_goals rw [hr] at h
    all_goals first
      | exact ⟨reaction, pl2, hp, hg, hk⟩
      | simp at h
  · rintro ⟨reaction, pl, ⟨h1, h2, h3, h4, h5, h6⟩, hg, hk⟩
    rw [← h6] at hg
    simp [deleteReaction, h1, h2, h3, h4, h5, ← h6, hg, hk, Run.HasPermissionToChannelContext,
      Run.record, Run.panic, Run.start]
  · intro h
    rcases listReactions_outcome env c r with
        ⟨_, hr⟩ | ⟨_, _, hr⟩ | ⟨_, _, hd, hr⟩ | ⟨e, _, _, _, hg, hr⟩ |
        ⟨pl2, h1, h2, h3, hg, hk, hr⟩ | ⟨pl2, post2, _, _, _, hg, hk, hm, hr⟩ |
        ⟨pl2, post2, e, _, _, _, hg, hk, hm, hs, hr⟩ |
        ⟨pl2, post2, reactions, _, _, _, hg, hk, hm, hs, hr⟩
    all_goals rw [hr] at h
    all_goals first
      | exact ⟨pl2, h1, h2, h3, hg, hk⟩
      | simp at h
  · rintro ⟨pl, h1, h2, h3, hg, hk⟩
    simp [listReactions, h1, h2, h3, hg, hk, Run.HasPermissionToChannelContext, Run.record,
      Run.panic, Run.start]

/-- C11 as stated fails: the handlers do not check the looked-up post, they rely on the
store to report an absent post as an error.  When `Post().Get` resolves without error to a
list with no entry for `postA`, the map read yields the nil post and each of the three
handlers faults on `post.ChannelId`, having set no error, called the reaction store not at
all, launched no broadcast and written no body: neither the mismatch rejection nor the next
step is reached. -/
theorem missing_post_entry_faults :
    envEmptyList.PostGet postA = StoreResult.data emptyPostList ∧
    emptyPostList.lookup (param reqA.Vars "post_id") = none ∧
    ((saveReaction envEmptyList ctxA reqA).Panicked = true ∧
      (saveReaction envEmptyList ctxA reqA).c.Err = none ∧
      (saveReaction envEmptyList ctxA reqA).Log =
        [Effect.PermissionCheck chanA, Effect.PostGet postA] ∧
      (saveReaction envEmptyList ctxA reqA).Body = []) ∧
    ((deleteReaction envEmptyList ctxA reqA).Panicked = true ∧
      (deleteReaction envEmptyList ctxA reqA).c.Err = none ∧
      (deleteReaction envEmptyList ctxA reqA).Log =
        [Effect.PermissionCheck chanA, Effect.PostGet postA] ∧
      (deleteReaction envEmptyList ctxA reqA).Body = []) ∧
    ((listReactions envEmptyList ctxA reqA).Panicked = true ∧
      (listReactions envEmptyList ctxA reqA).c.Err = none ∧
      (listReactions envEmptyList ctxA reqA).Log =
        [Effect.PostGet postA, Effect.PermissionCheck chanA] ∧
      (listReactions envEmptyList ctxA reqA).Body = []) := by
  decide

/-- C11, amended: when `Post().Get` resolves without error to a list that carries an entry
for the requested post id, no handler faults, and a handler that reads the result reaches
the mismatch rejection (the post lives in another channel) or the next step, the call on the
reaction store (the post lives in the named channel).  `saveReaction` and `deleteReaction`
read the result whenever they issued the fetch, `listReactions` when the channel permission
check passes. -/
theorem cross_check_defined (env : Env) (c : Context) (r : Request) (pl : PostList)
    (post : Post)
    (hget : env.PostGet (param r.Vars "post_id") = StoreResult.data pl)
    (hpost : pl.lookup (param r.Vars "post_id") = some post) :
    ((saveReaction env c r).Panicked = false ∧
      (Effect.PostGet (param r.Vars "post_id") ∈ (saveReaction env c r).Log →
        (post.ChannelId ≠ param r.Vars "channel_id" →
          ∃ e, (saveReaction env c r).c.Err = some e ∧ e.StatusCode = StatusBadRequest ∧
            e.Id = "api.reaction.save_reaction.mismatched_channel_id.app_error") ∧
        (post.ChannelId = param r.Vars "channel_id" →
          ∃ reaction, Effect.ReactionSave reaction ∈ (saveReaction env c r).Log))) ∧
    ((deleteReaction env c r).Panicked = false ∧
      (Effect.PostGet (param r.Vars "post_id") ∈ (deleteReaction env c r).Log →
        (post.ChannelId ≠ param r.Vars "channel_id" →
          ∃ e, (deleteReaction env c r).c.Err = some e ∧ e.StatusCode = StatusBadRequest ∧
            e.Id = "api.reaction.delete_reaction.mismatched_channel_id.app_error") ∧
        (post.ChannelId = param r.Vars "channel_id" →
          ∃ reaction, Effect.ReactionDelete reaction ∈ (deleteReaction env c r).Log))) ∧
    ((listReactions env c r).Panicked = false ∧
      (env.HasPermissionToChannel c.Session.UserId (param r.Vars "channel_id")
          PERMISSION_READ_CHANNEL = true →
        Effect.PostGet (param r.Vars "post_id") ∈ (listReactions env c r).Log →
        (post.ChannelId ≠ param r.Vars "channel_id" →
          ∃ e, (listReactions env c r).c.Err = some e ∧ e.StatusCode = StatusBadRequest ∧
            e.Id = "api.reaction.list_reactions.mismatched_channel_id.app_error") ∧
        (post.ChannelId = param r.Vars "channel_id" →
          Effect.ReactionGetForPost (param r.Vars "post_id") ∈
            (listReactions env c r).Log))) := by
  refine ⟨?_, ?_, ?_⟩
  · rcases saveReaction_outcome env c r with
      ⟨_, hr⟩ | ⟨_, _, _, hr⟩ | ⟨_, _, _, _, hr⟩ | ⟨_, _, _, _, _, hr⟩ |
      ⟨_, _, _, _, _, _, hr⟩ | ⟨reaction, e, ⟨hp1, hp2, hp3, hp4, hp5, hp6⟩, hg, hr⟩ |
      ⟨reaction, pl2, ⟨hp1, hp2, hp3, hp4, hp5, hp6⟩, hg, hk, hr⟩ |
      ⟨reaction, pl2, post2, ⟨hp1, hp2, hp3, hp4, hp5, hp6⟩, hg, hk, hm, hr⟩ |
      ⟨reaction, pl2, post2, e, ⟨hp1, hp2, hp3, hp4, hp5, hp6⟩, hg, hk, hm, hs, hr⟩ |
      ⟨reaction, pl2, post2, saved, ⟨hp1, hp2, hp3, hp4, hp5, hp6⟩, hg, hk, hm, hs, hr⟩ <;>
    rw [hr] <;>
    simp_all [Context.withErr, mismatchedChannel, NewLocAppError]
  · rcases deleteReaction_outcome env c r with
      ⟨_, hr⟩ | ⟨_, _, _, hr⟩ | ⟨_, _, _, _, hr⟩ | ⟨_, _, _, _, _, hr⟩ |
      ⟨_, _, _, _, _, _, hr⟩ | ⟨reaction, e, ⟨hp1, hp2, hp3, hp4, hp5, hp6⟩, hg, hr⟩ |
      ⟨reaction, pl2, ⟨hp1, hp2, hp3, hp4, hp5, hp6⟩, hg, hk, hr⟩ |
      ⟨reaction, pl2, post2, ⟨hp1, hp2, hp3, hp4, hp5, hp6⟩, hg, hk, hm, hr⟩ |
      ⟨reaction, pl2, post2, e, ⟨hp1, hp2, hp3, hp4, hp5, hp6⟩, hg, hk, hm, hs, hr⟩ |
      ⟨reaction, pl2, post2, ⟨hp1, hp2, hp3, hp4, hp5, hp6⟩, hg, hk, hm, hs, hr⟩ <;>
    rw [hr] <;>
    simp_all [Context.withErr, mismatchedChannel, NewLocAppError]
  · rcases listReactions_outcome env c r with
      ⟨_, hr⟩ | ⟨_, _, hr⟩ | ⟨_, _, hd, hr⟩ | ⟨e, _, _, _, hg, hr⟩ |
      ⟨pl2, _, _, _, hg, hk, hr⟩ | ⟨pl2, post2, _, _, _, hg, hk, hm, hr⟩ |
      ⟨pl2, post2, e, _, _, _, hg, hk, hm, hs, hr⟩ |
      ⟨pl2, post2, reactions, _, _, _, hg, hk, hm, hs, hr⟩ <;>
    rw [hr] <;>
    simp_all [Context.withErr, mismatchedChannel, NewLocAppError]

/-- C11, amended, at concrete requests: the list carries `postA`, which lives in `chanA`;
the request on `chanA` goes on to the reaction store, the request on `chanB` is rejected as
mismatched, and none faults. -/
theorem cross_check_defined_witness :
    (saveReaction envOk ctxA reqA).Panicked = false ∧
    (∃ reaction, Effect.ReactionSave reaction ∈ (saveReaction envOk ctxA reqA).Log) ∧
    (∃ e, (saveReaction envOk ctxA reqB).c.Err = some e ∧ e.StatusCode = StatusBadRequest ∧
      e.Id = "api.reaction.save_reaction.mismatched_channel_id.app_error") ∧
    (deleteReaction envOk ctxA reqA).Panicked = false ∧
    (∃ reaction, Effect.ReactionDelete reaction ∈ (deleteReaction envOk ctxA reqA).Log) ∧
    (listReactions envOk ctxA reqB).Panicked = false ∧
    Effect.ReactionGetForPost (param reqA.Vars "post_id") ∈
      (listReactions envOk ctxA reqA).Log ∧
    (∃ e, (listReactions envOk ctxA reqB).c.Err = some e ∧ e.StatusCode = StatusBadRequest ∧
      e.Id = "api.reaction.list_reactions.mismatched_channel_id.app_error") :=
  ⟨(cross_check_defined envOk ctxA reqA thePostList thePost rfl (by decide)).1.1,
    ((cross_check_defined envOk ctxA reqA thePostList thePost rfl (by decide)).1.2
      (by decide)).2 (by decide),
    ((cross_check_defined envOk ctxA reqB thePostList thePost rfl (by decide)).1.2
      (by decide)).1 (by decide),
    (cross_check_defined envOk ctxA reqA thePostList thePost rfl (by decide)).2.1.1,
    ((cross_check_defined envOk ctxA reqA thePostList thePost rfl (by decide)).2.1.2
      (by decide)).2 (by decide),
    (cross_check_defined envOk ctxA reqB thePostList thePost rfl (by decide)).2.2.1,
    ((cross_check_defined envOk ctxA reqA thePostList thePost rfl (by decide)).2.2.2 rfl
      (by decide)).2 (by decide),
    ((cross_check_defined envOk ctxA reqB thePostList thePost rfl (by decide)).2.2.2 rfl
      (by decide)).1 (by decide)⟩

end Api
